import Mathlib

/-!
Verification development for the `vmfinder` command-line VM manager.

The repository code is shallowly embedded: the YAML template store
(`vmfinder/template.py`) becomes explicit state passing over association
lists keyed by strings; the hypervisor (libvirt) becomes a `Hyp` state
holding a list of domains, each with a parsed XML configuration tree
(`XNode`); the external ISO-mastering tools become a small environment
record.  Python dictionaries are modelled as association lists where a
later assignment overwrites an earlier binding, and Python `str` is
`String`.
-/

set_option autoImplicit false

namespace VMFinder

/-! ## Association-list primitives (model of Python `dict` operations) -/

/-- Assignment `d[k] = v` on a Python dict modelled on association lists:
the new binding shadows (here: replaces) any previous binding of `k`. -/
def alistInsert {α : Type} (k : String) (v : α) (l : List (String × α)) :
    List (String × α) :=
  (k, v) :: l.filter (fun p => p.1 != k)

/-- Deletion `d.pop(k, None)` on a Python dict modelled on association lists. -/
def alistErase {α : Type} (k : String) (l : List (String × α)) :
    List (String × α) :=
  l.filter (fun p => p.1 != k)

/-- Keys of an association list, in order. -/
def alistKeys {α : Type} (l : List (String × α)) : List String :=
  l.map Prod.fst

/-! ## Template store (`vmfinder/template.py`)

A parsed YAML template is a Python dict; the claims only inspect scalar
string values, so a template is an association list of strings.  The
store has two components: the files on disk (keyed by the file stem, the
file `s + ".yaml"` holding the parsed content) and the in-memory
`_templates` dict (keyed by template name). -/

/-- Parsed YAML template content: a dict of scalar values, modelled as an
association list from key to string value. -/
def Tmpl : Type := List (String × String)

instance : DecidableEq Tmpl :=
  inferInstanceAs (DecidableEq (List (String × String)))

/-- Python `template.get(k)`. -/
def tmplGet (t : Tmpl) (k : String) : Option String :=
  List.lookup k t

/-- Python `template.get(k, dflt)`. -/
def tmplGetD (t : Tmpl) (k : String) (dflt : String) : String :=
  (tmplGet t k).getD dflt

/-- Python `template[k] = v`. -/
def tmplSet (t : Tmpl) (k v : String) : Tmpl :=
  alistInsert k v t

/-- State of one template store: the `*.yaml` files on disk (file stem ↦
parsed content) and the manager's in-memory `_templates` dict (template
name ↦ content). -/
structure TmplStore where
  disk : List (String × Tmpl)
  mem : List (String × Tmpl)
deriving DecidableEq

/-- Effective name under which `_load_templates` registers a file:
`template.get('name', template_file.stem)` (template.py line 23). -/
def effName (stem : String) (t : Tmpl) : String :=
  (tmplGet t "name").getD stem

/-- Body of `TemplateManager._load_templates` (template.py lines 17-26):
iterate over the `*.yaml` files and register each parsed content under its
effective name, a later file overwriting an earlier one with the same
name.  Files that fail to parse are skipped with a warning; the model
covers the parseable files. -/
def loadDisk (files : List (String × Tmpl)) : List (String × Tmpl) :=
  files.foldl (fun m f => alistInsert (effName f.1 f.2) f.2 m) []

/-- Construction of a fresh `TemplateManager` over a directory
(template.py lines 11-15): `_templates` starts empty and `_load_templates`
fills it from disk. -/
def TmplStore.reload (s : TmplStore) : TmplStore :=
  { disk := s.disk, mem := loadDisk s.disk }

/-- `TemplateManager.create_template` (template.py lines 45-51): set
`template['name'] = name`, write the content to `name + ".yaml"`, and
register it in `_templates` under `name`. -/
def TmplStore.create (s : TmplStore) (name : String) (t : Tmpl) : TmplStore :=
  let t' := tmplSet t "name" name
  { disk := alistInsert name t' s.disk, mem := alistInsert name t' s.mem }

/-- `TemplateManager.delete_template` (template.py lines 53-60): when the
file `name + ".yaml"` exists, remove it and pop the in-memory entry,
returning `true`; otherwise return `false` and change nothing. -/
def TmplStore.delete (s : TmplStore) (name : String) : TmplStore × Bool :=
  if (List.lookup name s.disk).isSome then
    ({ disk := alistErase name s.disk, mem := alistErase name s.mem }, true)
  else
    (s, false)

/-- `TemplateManager.get_template` (template.py lines 41-43): a lookup in
the in-memory `_templates` dict. -/
def TmplStore.getTemplate (s : TmplStore) (name : String) : Option Tmpl :=
  List.lookup name s.mem

/-- Listing entry produced by `TemplateManager.list_templates`
(template.py lines 28-39). -/
structure TmplEntry where
  name : String
  os : String
  version : String
  arch : String
  descr : String
deriving DecidableEq

/-- `TemplateManager.list_templates` (template.py lines 28-39): one entry
per in-memory template, with defaulted scalar fields (the `description`
key is rendered into the `descr` field). -/
def TmplStore.listTemplates (s : TmplStore) : List TmplEntry :=
  s.mem.map (fun p =>
    { name := p.1
      os := tmplGetD p.2 "os" "unknown"
      version := tmplGetD p.2 "version" "unknown"
      arch := tmplGetD p.2 "arch" "x86_64"
      descr := tmplGetD p.2 "description" "" })

/-- Operations a client can perform on a template store, including
reconstructing the manager from the directory. -/
inductive TmplOp where
  | create (name : String) (t : Tmpl)
  | delete (name : String)
  | reload
deriving DecidableEq

/-- Apply one template-store operation. -/
def TmplStore.step (s : TmplStore) : TmplOp → TmplStore
  | .create name t => s.create name t
  | .delete name => (s.delete name).1
  | .reload => s.reload

/-- Run a sequence of template-store operations from a state. -/
def TmplStore.run (s : TmplStore) (ops : List TmplOp) : TmplStore :=
  ops.foldl TmplStore.step s

/-- A store whose templates directory is empty, as `__init__` leaves a
fresh directory. -/
def TmplStore.empty : TmplStore := { disk := [], mem := [] }

/-- Store invariant: file stems are distinct, in-memory names are
distinct, every file's content carries its own stem as its `name` value,
and the in-memory dict agrees with the files on disk. -/
def TmplStore.Inv (s : TmplStore) : Prop :=
  (alistKeys s.disk).Nodup ∧ (alistKeys s.mem).Nodup ∧
  (∀ p ∈ s.disk, tmplGet p.2 "name" = some p.1) ∧
  (∀ n, List.lookup n s.mem = List.lookup n s.disk)

/-! ## XML configuration trees

`xml.etree.ElementTree` elements become a tree of nodes; the string and
tree forms of a domain's XML are identified (the parser and serializer
belong to the Python standard library, not to this repository). -/

/-- An XML element: tag, attribute dict, child elements, optional text. -/
inductive XNode where
  | mk : String → List (String × String) → List XNode → Option String → XNode

/-- Tag of an element. -/
def XNode.tag : XNode → String
  | .mk t _ _ _ => t

/-- Attribute dict of an element. -/
def XNode.attrs : XNode → List (String × String)
  | .mk _ a _ _ => a

/-- Child elements, in document order. -/
def XNode.children : XNode → List XNode
  | .mk _ _ c _ => c

/-- Element text (`elem.text`), `none` when the element has no content. -/
def XNode.text : XNode → Option String
  | .mk _ _ _ tx => tx

/-- Python `elem.get(k)`: attribute lookup. -/
def XNode.attr (n : XNode) (k : String) : Option String :=
  List.lookup k n.attrs

/-- Python `elem.set(k, v)`: attribute assignment. -/
def XNode.setAttr (k v : String) : XNode → XNode
  | .mk t a c tx => .mk t (alistInsert k v a) c tx

/-- Python `del elem.attrib[k]` (a no-op here when the key is absent; the
source only deletes keys it has just observed). -/
def XNode.delAttr (k : String) : XNode → XNode
  | .mk t a c tx => .mk t (alistErase k a) c tx

/-- Replace the children of an element. -/
def XNode.withChildren (cs : List XNode) : XNode → XNode
  | .mk t a _ tx => .mk t a cs tx

/-- Replace the text of an element. -/
def XNode.withText (tx : Option String) : XNode → XNode
  | .mk t a c _ => .mk t a c tx

/-- Python `elem.find(tag)`: first direct child with the given tag. -/
def XNode.findChild (n : XNode) (t : String) : Option XNode :=
  n.children.find? (fun c => c.tag == t)

/-- Apply `f` to the first element of the list satisfying `p`, leaving
the rest unchanged. -/
def mapFirstBy {α : Type} (p : α → Bool) (f : α → α) : List α → List α
  | [] => []
  | x :: xs => if p x then f x :: xs else x :: mapFirstBy p f xs

/-- In-place mutation of the first direct child with the given tag, the
tree-level rendering of Python's `elem.find(tag)` followed by mutation of
the found element. -/
def XNode.mapChild (t : String) (f : XNode → XNode) (n : XNode) : XNode :=
  n.withChildren (mapFirstBy (fun c => c.tag == t) f n.children)

/-- Python `parent.findall('.//tag')` restricted to the subtree rooted at
`n` itself: `n` when its tag matches, followed by all matching
descendants, in document order. -/
def XNode.findAllOrSelf (t : String) : XNode → List XNode
  | .mk tg a c tx =>
    (if tg = t then [XNode.mk tg a c tx] else []) ++
      c.attach.flatMap (fun ch => XNode.findAllOrSelf t ch.1)
termination_by n => sizeOf n
decreasing_by
  have := List.sizeOf_lt_of_mem ch.2
  simp only [XNode.mk.sizeOf_spec]
  omega

/-- Python `root.findall('.//tag')`: all descendants of `root` with the
given tag, in document order. -/
def XNode.findAllDesc (t : String) (n : XNode) : List XNode :=
  n.children.flatMap (XNode.findAllOrSelf t)

/-! ## Hypervisor model (libvirt, external collaborator)

The libvirt daemon is external to the repository; it is modelled as a
list of domains.  Each domain carries the fields the embedded code reads:
name, state code, activity flag, the `dom.info()` quadruple, and the
parsed configuration XML.  Domain state codes are libvirt's fixed ABI
values. -/

def VIR_DOMAIN_NOSTATE : Nat := 0
def VIR_DOMAIN_RUNNING : Nat := 1
def VIR_DOMAIN_BLOCKED : Nat := 2
def VIR_DOMAIN_PAUSED : Nat := 3
def VIR_DOMAIN_SHUTDOWN : Nat := 4
def VIR_DOMAIN_SHUTOFF : Nat := 5
def VIR_DOMAIN_CRASHED : Nat := 6
def VIR_DOMAIN_PMSUSPENDED : Nat := 7

/-- The `VMState` enum of `vm_manager.py` (lines 13-22). -/
inductive VMState where
  | running
  | idle
  | paused
  | shutdown
  | shutoff
  | crashed
  | pmsuspended
  | unknown
deriving DecidableEq

/-- The `.value` string of each `VMState` member (vm_manager.py lines
15-22). -/
def VMState.value : VMState → String
  | .running => "running"
  | .idle => "idle"
  | .paused => "paused"
  | .shutdown => "shutdown"
  | .shutoff => "shutoff"
  | .crashed => "crashed"
  | .pmsuspended => "pmsuspended"
  | .unknown => "unknown"

/-- The `state_map` dict of `VMManager.list_vms` (vm_manager.py lines
83-92), read through `.get(state_code, VMState.UNKNOWN)` (line 92). -/
def listVmsStateMap (code : Nat) : VMState :=
  if code = VIR_DOMAIN_RUNNING then .running
  else if code = VIR_DOMAIN_BLOCKED then .idle
  else if code = VIR_DOMAIN_PAUSED then .paused
  else if code = VIR_DOMAIN_SHUTDOWN then .shutdown
  else if code = VIR_DOMAIN_SHUTOFF then .shutoff
  else if code = VIR_DOMAIN_CRASHED then .crashed
  else if code = VIR_DOMAIN_PMSUSPENDED then .pmsuspended
  else .unknown

/-- The `state_map` dict of `VMManager.get_vm_info` (vm_manager.py lines
128-137), read through `.get(state_code, VMState.UNKNOWN)` (line 137). -/
def getVmInfoStateMap (code : Nat) : VMState :=
  if code = VIR_DOMAIN_RUNNING then .running
  else if code = VIR_DOMAIN_BLOCKED then .idle
  else if code = VIR_DOMAIN_PAUSED then .paused
  else if code = VIR_DOMAIN_SHUTDOWN then .shutdown
  else if code = VIR_DOMAIN_SHUTOFF then .shutoff
  else if code = VIR_DOMAIN_CRASHED then .crashed
  else if code = VIR_DOMAIN_PMSUSPENDED then .pmsuspended
  else .unknown

/-- A libvirt domain, with the attributes the embedded code observes:
`name()`, `state()[0]`, `isActive()`, the `info()` tuple entries
`info[1]`/`info[2]`/`info[3]`/`info[4]`, the numeric id handed out while
the domain runs, and the configuration XML. -/
structure Domain where
  name : String
  stateCode : Nat
  active : Bool
  domId : Nat
  maxMemKiB : Nat
  memKiB : Nat
  nrVirtCpu : Nat
  cpuTimeNs : Nat
  xml : XNode

/-- The hypervisor: the set of domains libvirt knows, as a list. -/
structure Hyp where
  domains : List Domain

/-- Python exceptions the embedded code raises or propagates. -/
inductive PyErr where
  | valueError (msg : String)
  | runtimeError (msg : String)
deriving DecidableEq

/-- `conn.lookupByName(name)`: `some` the first domain with the name,
`none` when libvirt raises `libvirtError` because no domain matches. -/
def Hyp.lookupByName (h : Hyp) (n : String) : Option Domain :=
  h.domains.find? (fun d => d.name == n)

/-- `conn.lookupByID(i)`: only running domains hold an id. -/
def Hyp.lookupByID (h : Hyp) (i : Nat) : Option Domain :=
  h.domains.find? (fun d => d.active && d.domId == i)

/-- `conn.listDomainsID()`: ids of the active domains. -/
def Hyp.listDomainsID (h : Hyp) : List Nat :=
  (h.domains.filter (fun d => d.active)).map (fun d => d.domId)

/-- `conn.listDefinedDomains()`: names of the defined, inactive
domains. -/
def Hyp.listDefinedDomains (h : Hyp) : List String :=
  (h.domains.filter (fun d => !d.active)).map (fun d => d.name)

/-- Name element of a domain XML document, which libvirt's `defineXML`
uses to decide which domain the document describes. -/
def treeName (t : XNode) : Option String :=
  (t.findChild "name").bind (fun c => c.text)

/-- Modelled from the spec: `conn.defineXML(xml)` belongs to the external
hypervisor library.  When a domain with the document's name already
exists (for instance a running domain made transient by `undefine`), its
stored configuration is replaced; otherwise a new defined, inactive,
shut-off domain is added.  A document without a name element is rejected
by libvirt; the model leaves the hypervisor unchanged in that case. -/
def Hyp.defineXML (h : Hyp) (t : XNode) : Hyp :=
  match treeName t with
  | none => h
  | some nm =>
    if (h.lookupByName nm).isSome then
      { domains := h.domains.map (fun d => if d.name = nm then { d with xml := t } else d) }
    else
      { domains := h.domains ++
          [{ name := nm, stateCode := VIR_DOMAIN_SHUTOFF, active := false,
             domId := 0, maxMemKiB := 0, memKiB := 0, nrVirtCpu := 0,
             cpuTimeNs := 0, xml := t }] }

/-- Modelled from the spec: `dom.undefine()` / `dom.undefineFlags(...)`
belong to the external hypervisor library.  Undefining an inactive domain
removes it; undefining an active domain merely makes it transient, which
this model renders as leaving it in place. -/
def Hyp.undefineDom (h : Hyp) (n : String) : Hyp :=
  { domains := h.domains.filter (fun d => !(d.name == n && !d.active)) }

/-! ## `VMManager.list_vms` and `VMManager.get_vm_info`

Python float division of KiB values by 1024 (and of nanoseconds by 1e9)
is modelled with exact rational division. -/

/-- Python `x or y` on optional strings: `None` and the empty string are
falsy. -/
def pyOr (a b : Option String) : Option String :=
  match a with
  | some s => if s = "" then b else some s
  | none => b

/-- Interface record built by `get_vm_info` (vm_manager.py lines
149-153); `typ` renders the `type` key. -/
structure IfaceInfo where
  mac : Option String
  typ : Option String
  source : Option String
deriving DecidableEq

/-- Disk record built by `get_vm_info` (vm_manager.py lines 161-165);
`typ` renders the `type` key. -/
structure DiskInfo where
  source : Option String
  target : Option String
  typ : Option String
deriving DecidableEq

/-- Result dict of `get_vm_info` (vm_manager.py lines 167-176). -/
structure VMInfo where
  name : String
  state : String
  cpu : Nat
  memory : ℚ
  max_memory : ℚ
  cpu_time : ℚ
  interfaces : List IfaceInfo
  disks : List DiskInfo
deriving DecidableEq

/-- Interface extraction of `get_vm_info` (vm_manager.py lines 144-153):
every descendant `interface` element owning both a `mac` and a `source`
child contributes one record. -/
def extractInterfaces (root : XNode) : List IfaceInfo :=
  (root.findAllDesc "interface").filterMap (fun iface =>
    match iface.findChild "mac", iface.findChild "source" with
    | some mac, some src =>
        some { mac := mac.attr "address", typ := iface.attr "type",
               source := pyOr (src.attr "network") (src.attr "bridge") }
    | _, _ => none)

/-- Disk extraction of `get_vm_info` (vm_manager.py lines 156-165):
every descendant `disk` element owning both a `source` and a `target`
child contributes one record. -/
def extractDisks (root : XNode) : List DiskInfo :=
  (root.findAllDesc "disk").filterMap (fun disk =>
    match disk.findChild "source", disk.findChild "target" with
    | some src, some tgt =>
        some { source := src.attr "file", target := tgt.attr "dev",
               typ := disk.attr "type" }
    | _, _ => none)

/-- `VMManager.get_vm_info` (vm_manager.py lines 119-178).  Every libvirt
call it makes (`lookupByName`, `info`, `state`, `XMLDesc`) is a read, so
the hypervisor is threaded through unchanged; a `libvirtError` from the
lookup is the `None` branch of the trailing `except`. -/
def Hyp.getVmInfo (h : Hyp) (n : String) : Option VMInfo × Hyp :=
  match h.lookupByName n with
  | none => (none, h)
  | some d =>
      (some { name := n
              state := (getVmInfoStateMap d.stateCode).value
              cpu := d.nrVirtCpu
              memory := (d.memKiB : ℚ) / 1024
              max_memory := (d.maxMemKiB : ℚ) / 1024
              cpu_time := (d.cpuTimeNs : ℚ) / 1000000000
              interfaces := extractInterfaces d.xml
              disks := extractDisks d.xml }, h)

/-- One row of the `list_vms` result (vm_manager.py lines 94-106):
either the regular record or the error record appended when a per-name
lookup raises. -/
inductive VMRow where
  | ok (name state : String) (cpu : Nat) (memory maxMemory : ℚ)
  | err (name : String)
deriving DecidableEq

/-- `VMManager.list_vms` (vm_manager.py lines 56-108): collect the names
of the running domains (by id) and of the defined inactive domains into a
set, then build one row per name in sorted order.  All calls are reads,
so the hypervisor is returned unchanged. -/
def Hyp.listVms (h : Hyp) : List VMRow × Hyp :=
  let idNames := h.listDomainsID.filterMap
    (fun i => (h.lookupByID i).map (fun d => d.name))
  let allNames := (idNames ++ h.listDefinedDomains).dedup
  let sortedNames := allNames.mergeSort (fun a b => decide (a ≤ b))
  (sortedNames.map (fun nm =>
    match h.lookupByName nm with
    | some d =>
        VMRow.ok nm (listVmsStateMap d.stateCode).value d.nrVirtCpu
          ((d.memKiB : ℚ) / 1024) ((d.maxMemKiB : ℚ) / 1024)
    | none => VMRow.err nm), h)

/-! ## Domain lifecycle (`vm_manager.py` lines 180-336) -/

/-- Apply a per-domain update to the named domain. -/
def Hyp.updateDom (h : Hyp) (n : String) (f : Domain → Domain) : Hyp :=
  { domains := h.domains.map (fun d => if d.name = n then f d else d) }

/-- Modelled from the spec: `dom.create()` belongs to the external
hypervisor library; it boots the defined domain, which becomes active and
running. -/
def Hyp.domCreate (h : Hyp) (n : String) : Hyp :=
  h.updateDom n (fun d => { d with active := true, stateCode := VIR_DOMAIN_RUNNING })

/-- Modelled from the spec: `dom.destroy()` belongs to the external
hypervisor library; it hard-stops the domain. -/
def Hyp.domDestroy (h : Hyp) (n : String) : Hyp :=
  h.updateDom n (fun d => { d with active := false, stateCode := VIR_DOMAIN_SHUTOFF })

/-- Modelled from the spec: `dom.shutdown()` belongs to the external
hypervisor library; it only delivers a shutdown request to the guest, so
the model leaves the domain unchanged. -/
def Hyp.domShutdown (h : Hyp) (_n : String) : Hyp :=
  h

/-- Modelled from the spec: `dom.suspend()` belongs to the external
hypervisor library; the domain stays active and enters the paused
state. -/
def Hyp.domSuspend (h : Hyp) (n : String) : Hyp :=
  h.updateDom n (fun d => { d with stateCode := VIR_DOMAIN_PAUSED })

/-- Modelled from the spec: `dom.resume()` belongs to the external
hypervisor library; the paused domain returns to the running state. -/
def Hyp.domResume (h : Hyp) (n : String) : Hyp :=
  h.updateDom n (fun d => { d with stateCode := VIR_DOMAIN_RUNNING })

/-- `VMManager.start_vm` (vm_manager.py lines 256-283).  The
disk-permission pass before `dom.create()` touches only the host
filesystem (`DiskManager.fix_disk_permissions`), never the hypervisor,
and its failures are swallowed; it is therefore not part of the
hypervisor state transition. -/
def Hyp.startVm (h : Hyp) (n : String) : Except PyErr Bool × Hyp :=
  match h.lookupByName n with
  | none => (.error (.runtimeError "Failed to start VM"), h)
  | some d =>
      if d.active then (.ok false, h)
      else (.ok true, h.domCreate n)

/-- `VMManager.stop_vm` (vm_manager.py lines 285-299). -/
def Hyp.stopVm (h : Hyp) (n : String) (force : Bool) : Except PyErr Bool × Hyp :=
  match h.lookupByName n with
  | none => (.error (.runtimeError "Failed to stop VM"), h)
  | some d =>
      if !d.active then (.ok false, h)
      else if force then (.ok true, h.domDestroy n)
      else (.ok true, h.domShutdown n)

/-- `VMManager.suspend_vm` (vm_manager.py lines 301-311). -/
def Hyp.suspendVm (h : Hyp) (n : String) : Except PyErr Bool × Hyp :=
  match h.lookupByName n with
  | none => (.error (.runtimeError "Failed to suspend VM"), h)
  | some d =>
      if !d.active then (.ok false, h)
      else (.ok true, h.domSuspend n)

/-- `VMManager.resume_vm` (vm_manager.py lines 313-324). -/
def Hyp.resumeVm (h : Hyp) (n : String) : Except PyErr Bool × Hyp :=
  match h.lookupByName n with
  | none => (.error (.runtimeError "Failed to resume VM"), h)
  | some d =>
      if d.stateCode ≠ VIR_DOMAIN_PAUSED then (.ok false, h)
      else (.ok true, h.domResume n)

/-! ## `VMManager.create_vm` and its XML generator -/

/-- `VMManager._generate_vm_xml` (vm_manager.py lines 202-254),
transliterated from the XML literal into the node model (the string and
tree forms are identified).  The `os_variant` template key is read by the
source but never emitted into the XML. -/
def genVmXml (name : String) (tmpl : Tmpl) (diskPath : String)
    (cpu memoryMb : Nat) (network : String) : XNode :=
  let osType := tmplGetD tmpl "os_type" "hvm"
  let arch := tmplGetD tmpl "arch" "x86_64"
  let bootDev := tmplGetD tmpl "boot" "hd"
  XNode.mk "domain" [("type", "kvm")]
    [XNode.mk "name" [] [] (some name),
     XNode.mk "memory" [("unit", "MiB")] [] (some (toString memoryMb)),
     XNode.mk "currentMemory" [("unit", "MiB")] [] (some (toString memoryMb)),
     XNode.mk "vcpu" [("placement", "static")] [] (some (toString cpu)),
     XNode.mk "os" []
       [XNode.mk "type" [("arch", arch)] [] (some osType),
        XNode.mk "boot" [("dev", bootDev)] [] none] none,
     XNode.mk "features" []
       [XNode.mk "acpi" [] [] none, XNode.mk "apic" [] [] none,
        XNode.mk "pae" [] [] none] none,
     XNode.mk "cpu" [("mode", "host-passthrough")] [] none,
     XNode.mk "clock" [("offset", "utc")] [] none,
     XNode.mk "on_poweroff" [] [] (some "destroy"),
     XNode.mk "on_reboot" [] [] (some "restart"),
     XNode.mk "on_crash" [] [] (some "restart"),
     XNode.mk "devices" []
       [XNode.mk "disk" [("type", "file"), ("device", "disk")]
          [XNode.mk "driver" [("name", "qemu"), ("type", "qcow2")] [] none,
           XNode.mk "source" [("file", diskPath)] [] none,
           XNode.mk "target" [("dev", "vda"), ("bus", "virtio")] [] none] none,
        XNode.mk "interface" [("type", "network")]
          [XNode.mk "source" [("network", network)] [] none,
           XNode.mk "model" [("type", "virtio")] [] none] none,
        XNode.mk "console" [("type", "pty")]
          [XNode.mk "target" [("type", "serial"), ("port", "0")] [] none] none,
        XNode.mk "graphics"
          [("type", "vnc"), ("port", "-1"), ("autoport", "yes"),
           ("listen", "127.0.0.1")] [] none,
        XNode.mk "video" []
          [XNode.mk "model" [("type", "cirrus"), ("vram", "9216"),
             ("heads", "1")] [] none] none] none] none

/-- `VMManager.create_vm` (vm_manager.py lines 180-200): raise
`ValueError` when the name already resolves to a domain, otherwise define
a new domain from the generated XML and return `True`. -/
def Hyp.createVm (h : Hyp) (name : String) (tmpl : Tmpl) (diskPath : String)
    (cpu memoryMb : Nat) (network : String) : Except PyErr Bool × Hyp :=
  match h.lookupByName name with
  | some _ => (.error (.valueError ("VM " ++ name ++ " already exists")), h)
  | none =>
      (.ok true, h.defineXML (genVmXml name tmpl diskPath cpu memoryMb network))

/-! ## `VMManager.set_cpu` (vm_manager.py lines 338-451) -/

/-- Whitespace characters Python's `str.strip` and `int` discard. -/
def isPyWs (c : Char) : Bool :=
  c = ' ' || c = '\t' || c = '\n' || c = '\r'

/-- Python `s.strip()`. -/
def pyStrip (s : String) : String :=
  String.mk (((s.data.dropWhile isPyWs).reverse.dropWhile isPyWs).reverse)

/-- Python `int(s)` on the nonnegative decimal strings this code reads
from vCPU counts (surrounding whitespace discarded, as `int` does);
`none` models the `ValueError` a non-numeric string raises. -/
def pyInt (s : String) : Option Nat :=
  let cs := (pyStrip s).data
  if cs ≠ [] ∧ cs.all (fun c => c.isDigit) then
    some (cs.foldl (fun n c => n * 10 + (c.toNat - 48)) 0)
  else none

/-- Python truthiness of an optional string: `None` and `''` are falsy. -/
def pyTruthy (o : Option String) : Bool :=
  (o.getD "") != ""

/-- Current maximum vCPU count as `set_cpu` computes it (vm_manager.py
lines 386-394): the `current` attribute when present and non-empty, else
the stripped element text, else `0`. -/
def vcpuMaxOf (v : XNode) : Option Nat :=
  if pyTruthy (v.attr "current") then pyInt ((v.attr "current").getD "")
  else if pyTruthy v.text then pyInt (pyStrip (v.text.getD ""))
  else some 0

/-- Modelled from the spec: `dom.setVcpusFlags(cpu, AFFECT_LIVE)` belongs
to the external hypervisor library; it changes the live vCPU count. -/
def Hyp.setVcpusLive (h : Hyp) (n : String) (cpu : Nat) : Hyp :=
  h.updateDom n (fun d => { d with nrVirtCpu := cpu })

/-- Modelled from the spec: `dom.setVcpusFlags(cpu, AFFECT_CONFIG)`
belongs to the external hypervisor library; it records the requested
count in the stored configuration's `vcpu` element. -/
def Hyp.setVcpusConfig (h : Hyp) (n : String) (cpu : Nat) : Hyp :=
  h.updateDom n (fun d =>
    { d with xml := d.xml.mapChild "vcpu" (XNode.setAttr "current" (toString cpu)) })

/-- Mutation of the found `vcpu` element in the running branch of the
max-vCPU update (vm_manager.py lines 402-411): text becomes the new
maximum, `current` keeps the existing maximum, and an `auto` placement
becomes `static`. -/
def patchVcpuRunning (cpu maxv : Nat) (w : XNode) : XNode :=
  let w1 := (w.withText (some (toString cpu))).setAttr "current" (toString maxv)
  if w1.attr "placement" == some "auto" then w1.setAttr "placement" "static" else w1

/-- Mutation of the found `vcpu` element in the stopped branch of the
max-vCPU update (vm_manager.py lines 428-438): text and `current` both
become the requested count, and an `auto` placement becomes `static`. -/
def patchVcpuStopped (cpu : Nat) (w : XNode) : XNode :=
  let w1 := (w.withText (some (toString cpu))).setAttr "current" (toString cpu)
  if w1.attr "placement" == some "auto" then w1.setAttr "placement" "static" else w1

/-- The error message of vm_manager.py lines 419-426. -/
def setCpuRunningErr (name : String) (maxv cpu : Nat) : String :=
  "Cannot increase CPU count from " ++ toString maxv ++ " to " ++ toString cpu
    ++ " while VM is running. Maximum vCPU count of a live domain cannot be modified. "
    ++ "Please stop the VM first with vmfinder vm stop " ++ name
    ++ ", then run vmfinder vm set-cpu " ++ name ++ " " ++ toString cpu
    ++ ", then start it again with vmfinder vm start " ++ name
    ++ ". The configuration has been updated for next boot."

/-- Final assignment of the CPU count (vm_manager.py lines 446-449):
live and persistent when the domain is active, persistent only
otherwise. -/
def Hyp.setCpuFinal (h : Hyp) (nm : String) (cpu : Nat) (isActive : Bool) :
    Except PyErr Bool × Hyp :=
  let h1 := if isActive then h.setVcpusLive nm cpu else h
  (.ok true, h1.setVcpusConfig nm cpu)

/-- `VMManager.set_cpu` (vm_manager.py lines 338-451).  The in-place
`ElementTree` mutations become tree rebuilds; `undefineFlags` /
`undefine` followed by `defineXML` replaces the stored configuration; a
`libvirtError` from the lookup becomes the wrapped `RuntimeError` of the
trailing `except`; an unparseable vCPU count is the uncaught
`ValueError` of `int()`. -/
def Hyp.setCpu (h : Hyp) (nm : String) (cpu : Nat) : Except PyErr Bool × Hyp :=
  match h.lookupByName nm with
  | none => (.error (.runtimeError "Failed to set CPU count"), h)
  | some dom0 =>
      let root0 := dom0.xml
      let _isActive0 := dom0.active
      let fixVcpu : Bool :=
        match root0.findChild "vcpu" with
        | some v => v.attr "placement" == some "auto"
        | none => false
      let root1 :=
        if fixVcpu then root0.mapChild "vcpu" (XNode.setAttr "placement" "static")
        else root0
      let fixNuma : Bool :=
        match root1.findChild "numatune" with
        | some numa =>
            match numa.findChild "memory" with
            | some mem => mem.attr "placement" == some "auto"
            | none => false
        | none => false
      let root2 :=
        if fixNuma then
          root1.mapChild "numatune" (XNode.mapChild "memory" (XNode.delAttr "placement"))
        else root1
      let placementFixed := fixVcpu || fixNuma
      -- the active and inactive redefinition paths (lines 372-378) both
      -- amount to replacing the stored configuration and re-reading the
      -- domain; `isActive0` only selects which libvirt calls perform it
      let h1 := if placementFixed then (h.undefineDom nm).defineXML root2 else h
      let domOpt1 := if placementFixed then h1.lookupByName nm else some dom0
      match domOpt1 with
      | none => (.error (.runtimeError "Failed to set CPU count"), h1)
      | some dom1 =>
          let root := if placementFixed then dom1.xml else root0
          match root.findChild "vcpu" with
          | none => h1.setCpuFinal nm cpu dom1.active
          | some v =>
              match vcpuMaxOf v with
              | none => (.error (.valueError "invalid literal for int"), h1)
              | some maxv =>
                  if cpu > maxv then
                    if dom1.active then
                      let newRoot := root.mapChild "vcpu" (patchVcpuRunning cpu maxv)
                      let h2 := (h1.undefineDom nm).defineXML newRoot
                      (.error (.runtimeError (setCpuRunningErr nm maxv cpu)), h2)
                    else
                      let newRoot := root.mapChild "vcpu" (patchVcpuStopped cpu)
                      let h2 := (h1.undefineDom nm).defineXML newRoot
                      match h2.lookupByName nm with
                      | none => (.error (.runtimeError "Failed to set CPU count"), h2)
                      | some dom2 => h2.setCpuFinal nm cpu dom2.active
                  else h1.setCpuFinal nm cpu dom1.active

/-- Combined placement fix of vm_manager.py lines 349-367: `vcpu`
placement `auto` becomes `static` and the numatune `memory` placement
attribute is removed (stated as the unconditional tree rewrite the code
performs when both `auto` placements are present). -/
def placementFixedXml (root : XNode) : XNode :=
  (root.mapChild "vcpu" (XNode.setAttr "placement" "static")).mapChild
    "numatune" (XNode.mapChild "memory" (XNode.delAttr "placement"))

/-- The configuration persisted by the running-domain branch of the
max-vCPU update (vm_manager.py lines 401-416): the placement-fixed tree
with the `vcpu` element rewritten by `patchVcpuRunning`. -/
def runningMaxPersistXml (cpu maxv : Nat) (root : XNode) : XNode :=
  (placementFixedXml root).mapChild "vcpu" (patchVcpuRunning cpu maxv)

/-! ## Cloud-init (`cloud_init.py`) -/

/-- The default meta-data written when none is supplied (cloud_init.py
lines 40-43). -/
def defaultMetaData : String :=
  "instance-id: iid-local01\nlocal-hostname: cloudimg\n"

/-- The files `create_cloud_init_iso` stages into the temporary build
directory (cloud_init.py lines 33-44): exactly `user-data` and
`meta-data`, in write order. -/
def cloudInitFiles (userData : String) (metaData : Option String) :
    List (String × String) :=
  [("user-data", userData), ("meta-data", metaData.getD defaultMetaData)]

/-- Host environment of `create_cloud_init_iso`: which ISO tools
`shutil.which` finds, whether each invocation fails, and the name
`tempfile.mktemp` would hand out. -/
structure IsoEnv where
  genisoAvail : Bool
  mkisofsAvail : Bool
  genisoFails : Bool
  mkisofsFails : Bool
  tmpName : String

/-- Outcome of one `create_cloud_init_iso` call: the returned path or the
`RuntimeError` message, the tool invocations attempted in order (tool
name with the file arguments passed to it), and the staged files. -/
structure IsoRun where
  result : Except String String
  invoked : List (String × List String)
  staged : List (String × String)

/-- `CloudInitManager.create_cloud_init_iso` (cloud_init.py lines
14-107): resolve the output path, stage the two files, then try
`genisoimage` first when found, falling back to the `mkisofs` found at
entry when `genisoimage` fails, and raise `RuntimeError` otherwise. -/
def createCloudInitIso (env : IsoEnv) (userData : String)
    (metaData : Option String) (outputPath : Option String) : IsoRun :=
  let out := outputPath.getD env.tmpName
  let staged := cloudInitFiles userData metaData
  let fileArgs := ["user-data", "meta-data"]
  if env.genisoAvail then
    if !env.genisoFails then
      { result := .ok out, invoked := [("genisoimage", fileArgs)], staged := staged }
    else if env.mkisofsAvail then
      if !env.mkisofsFails then
        { result := .ok out,
          invoked := [("genisoimage", fileArgs), ("mkisofs", fileArgs)],
          staged := staged }
      else
        { result := .error "Failed to create ISO with both genisoimage and mkisofs.",
          invoked := [("genisoimage", fileArgs), ("mkisofs", fileArgs)],
          staged := staged }
    else
      { result := .error "genisoimage failed; mkisofs not found.",
        invoked := [("genisoimage", fileArgs)], staged := staged }
  else if env.mkisofsAvail then
    if !env.mkisofsFails then
      { result := .ok out, invoked := [("mkisofs", fileArgs)], staged := staged }
    else
      { result := .error "Failed to create ISO with mkisofs.",
        invoked := [("mkisofs", fileArgs)], staged := staged }
  else
    { result := .error "Neither genisoimage nor mkisofs found.",
      invoked := [], staged := staged }

/-- Python substring test `sub in s`. -/
def pyContains (sub s : String) : Bool :=
  decide (sub.toList <:+: s.toList)

/-- Test of cloud_init.py lines 161-163 deciding whether a `devices`
child is an already-attached cloud-init CD-ROM: a `disk` element of type
`file`, device `cdrom`, whose `source` child's `file` attribute contains
`cidata` (absent attribute read as `''`). -/
def isCidataCdrom (disk : XNode) : Bool :=
  disk.tag == "disk" && disk.attr "type" == some "file"
    && disk.attr "device" == some "cdrom"
    && (match disk.findChild "source" with
        | some src => pyContains "cidata" ((src.attr "file").getD "")
        | none => false)

/-- Update of an already-attached cloud-init CD-ROM (cloud_init.py lines
164-166): point its `source` at the new ISO and force the target device
to `hda`.  `attach_cloud_init_iso_to_vm` applies this rewrite only when
the matched disk has a `target` child; with no `target` child the source
raises an uncaught `AttributeError` at line 166 instead, which the
caller below renders as the error branch guarding this rewrite. -/
def updCidataCdrom (iso : String) (d : XNode) : XNode :=
  (d.mapChild "source" (XNode.setAttr "file" iso)).mapChild "target"
    (XNode.setAttr "dev" "hda")

/-- The fresh CD-ROM device appended when no cloud-init CD-ROM is
attached yet (cloud_init.py lines 172-176). -/
def cidataCdromNode (iso : String) : XNode :=
  XNode.mk "disk" [("type", "file"), ("device", "cdrom")]
    [XNode.mk "driver" [("name", "qemu"), ("type", "raw")] [] none,
     XNode.mk "source" [("file", iso)] [] none,
     XNode.mk "target" [("dev", "hda"), ("bus", "ide")] [] none,
     XNode.mk "readonly" [] [] none] none

/-- `CloudInitManager.attach_cloud_init_iso_to_vm` (cloud_init.py lines
138-182): update the first attached cloud-init CD-ROM in place when one
exists, otherwise append a new CD-ROM device; either way redefine the
domain from the modified tree.  A missing domain, a configuration
without a `devices` element, and a matched cloud-init CD-ROM without a
`target` child all raise (`libvirtError` respectively `AttributeError`
at lines 159-160 and 166), which the function does not catch; in those
cases no `defineXML` happens, so the hypervisor is unchanged (the
in-place `ElementTree` mutations are local to the call). -/
def Hyp.attachCloudInitIso (h : Hyp) (nm iso : String) : Except PyErr Unit × Hyp :=
  match h.lookupByName nm with
  | none => (.error (.runtimeError "lookupByName failed"), h)
  | some d =>
      let root := d.xml
      match root.findChild "devices" with
      | none => (.error (.runtimeError "AttributeError"), h)
      | some devs =>
          match devs.children.find? isCidataCdrom with
          | some c =>
              if (c.findChild "target").isSome then
                let newRoot := root.mapChild "devices" (fun dv =>
                  dv.withChildren
                    (mapFirstBy isCidataCdrom (updCidataCdrom iso) dv.children))
                (.ok (), h.defineXML newRoot)
              else (.error (.runtimeError "AttributeError"), h)
          | none =>
              let newRoot := root.mapChild "devices" (fun dv =>
                dv.withChildren (dv.children ++ [cidataCdromNode iso]))
              (.ok (), h.defineXML newRoot)

/-! ## CLI disk-image paths (`cli.py`) -/

/-- Python `Path.__truediv__`: path join with a `/` separator. -/
def pathJoin (a b : String) : String :=
  a ++ "/" ++ b

/-- Disk image path computed by the `vm create` command (cli.py lines
171-172): `storage_dir / f"{name}.qcow2"`, handed to disk creation and
overwrite deletion. -/
def vmCreateDiskPath (storageDir name : String) : String :=
  pathJoin storageDir (name ++ ".qcow2")

/-- Disk image path computed by the `vm delete` command (cli.py lines
473-474), handed to `DiskManager.delete_disk`. -/
def vmDeleteDiskPath (storageDir name : String) : String :=
  pathJoin storageDir (name ++ ".qcow2")

/-- Disk image path computed by the `vm fix-permissions` command for the
VM's own disk in the standard storage location (cli.py lines 1064-1065),
handed to `DiskManager.fix_disk_permissions`. -/
def vmFixPermissionsDiskPath (storageDir name : String) : String :=
  pathJoin storageDir (name ++ ".qcow2")

/-! ## Concrete states used to exercise the theorems -/

/-- A template store as observed after a manager was constructed over an
empty directory and a file `a.yaml` was then dropped into the directory
by an external process. -/
def staleStore : TmplStore :=
  { disk := [("a", [("os", "linux")])], mem := [] }

/-- Domain XML exercising `set_cpu`: `auto` vCPU placement with a current
maximum of 2, and an `auto` numatune memory placement. -/
def cpuXml : XNode :=
  XNode.mk "domain" [("type", "kvm")]
    [XNode.mk "name" [] [] (some "vm1"),
     XNode.mk "vcpu" [("placement", "auto")] [] (some "2"),
     XNode.mk "numatune" []
       [XNode.mk "memory" [("mode", "strict"), ("placement", "auto")] [] none]
       none] none

/-- A running domain configured by `cpuXml`. -/
def cpuDom : Domain :=
  { name := "vm1", stateCode := VIR_DOMAIN_RUNNING, active := true, domId := 1,
    maxMemKiB := 2097152, memKiB := 2097152, nrVirtCpu := 2, cpuTimeNs := 0,
    xml := cpuXml }

/-- A hypervisor holding only `cpuDom`. -/
def cpuHyp : Hyp := { domains := [cpuDom] }

/-- An attached cloud-init CD-ROM device pointing at an old seed ISO. -/
def oldCdrom : XNode :=
  XNode.mk "disk" [("type", "file"), ("device", "cdrom")]
    [XNode.mk "driver" [("name", "qemu"), ("type", "raw")] [] none,
     XNode.mk "source" [("file", "/tmp/a-cidata.iso")] [] none,
     XNode.mk "target" [("dev", "hda"), ("bus", "ide")] [] none] none

/-- A regular qcow2 disk device. -/
def qcowDisk : XNode :=
  XNode.mk "disk" [("type", "file"), ("device", "disk")]
    [XNode.mk "driver" [("name", "qemu"), ("type", "qcow2")] [] none,
     XNode.mk "source" [("file", "/var/lib/vmfinder/vm2.qcow2")] [] none,
     XNode.mk "target" [("dev", "vda"), ("bus", "virtio")] [] none] none

/-- Domain XML whose `devices` element already carries a cloud-init
CD-ROM. -/
def seededXml : XNode :=
  XNode.mk "domain" [("type", "kvm")]
    [XNode.mk "name" [] [] (some "vm2"),
     XNode.mk "devices" [] [qcowDisk, oldCdrom] none] none

/-- Domain XML whose `devices` element has no cloud-init CD-ROM yet. -/
def unseededXml : XNode :=
  XNode.mk "domain" [("type", "kvm")]
    [XNode.mk "name" [] [] (some "vm3"),
     XNode.mk "devices" [] [qcowDisk] none] none

/-- A stopped domain configured by `seededXml`. -/
def seededDom : Domain :=
  { name := "vm2", stateCode := VIR_DOMAIN_SHUTOFF, active := false, domId := 0,
    maxMemKiB := 2097152, memKiB := 2097152, nrVirtCpu := 2, cpuTimeNs := 0,
    xml := seededXml }

/-- A stopped domain configured by `unseededXml`. -/
def unseededDom : Domain :=
  { name := "vm3", stateCode := VIR_DOMAIN_SHUTOFF, active := false, domId := 0,
    maxMemKiB := 2097152, memKiB := 2097152, nrVirtCpu := 2, cpuTimeNs := 0,
    xml := unseededXml }

/-- A hypervisor holding the two cloud-init test domains. -/
def seedHyp : Hyp := { domains := [seededDom, unseededDom] }

/-- A malformed attached cloud-init CD-ROM with no `target` child, on
which cloud_init.py line 166 raises `AttributeError`. -/
def targetlessCdrom : XNode :=
  XNode.mk "disk" [("type", "file"), ("device", "cdrom")]
    [XNode.mk "driver" [("name", "qemu"), ("type", "raw")] [] none,
     XNode.mk "source" [("file", "/tmp/b-cidata.iso")] [] none] none

/-- Domain XML whose `devices` element carries only the malformed
cloud-init CD-ROM. -/
def targetlessXml : XNode :=
  XNode.mk "domain" [("type", "kvm")]
    [XNode.mk "name" [] [] (some "vm6"),
     XNode.mk "devices" [] [targetlessCdrom] none] none

/-- A stopped domain configured by `targetlessXml`. -/
def targetlessDom : Domain :=
  { name := "vm6", stateCode := VIR_DOMAIN_SHUTOFF, active := false, domId := 0,
    maxMemKiB := 2097152, memKiB := 2097152, nrVirtCpu := 2, cpuTimeNs := 0,
    xml := targetlessXml }

/-- A hypervisor holding only the domain with the malformed CD-ROM. -/
def targetlessHyp : Hyp := { domains := [targetlessDom] }

/-- Domain XML with one network interface and one disk, as `get_vm_info`
reads it. -/
def infoXml : XNode :=
  XNode.mk "domain" [("type", "kvm")]
    [XNode.mk "name" [] [] (some "vm4"),
     XNode.mk "devices" []
       [qcowDisk,
        XNode.mk "interface" [("type", "network")]
          [XNode.mk "mac" [("address", "52:54:00:00:00:01")] [] none,
           XNode.mk "source" [("network", "default")] [] none] none] none] none

/-- A paused domain configured by `infoXml`. -/
def infoDom : Domain :=
  { name := "vm4", stateCode := VIR_DOMAIN_PAUSED, active := true, domId := 2,
    maxMemKiB := 4194304, memKiB := 2097152, nrVirtCpu := 4,
    cpuTimeNs := 1500000000, xml := infoXml }

/-- A stopped domain used to exercise the lifecycle guards. -/
def stoppedDom : Domain :=
  { name := "vm5", stateCode := VIR_DOMAIN_SHUTOFF, active := false, domId := 0,
    maxMemKiB := 1048576, memKiB := 1048576, nrVirtCpu := 1, cpuTimeNs := 0,
    xml := unseededXml }

/-- A hypervisor used by the lifecycle and query witnesses. -/
def lifeHyp : Hyp := { domains := [cpuDom, infoDom, stoppedDom] }

/-- An ISO-tool environment where `genisoimage` is present but failing
and `mkisofs` is present and working. -/
def isoEnv0 : IsoEnv :=
  { genisoAvail := true, mkisofsAvail := true, genisoFails := true,
    mkisofsFails := false, tmpName := "/tmp/tmp1234.iso" }

/-! ## Association-list lemmas -/

theorem lookup_filterKey_ne {α : Type} {k n : String} (hnk : n ≠ k)
    (l : List (String × α)) :
    List.lookup n (l.filter (fun p => p.1 != k)) = List.lookup n l := by
  induction l with
  | nil => rfl
  | cons a t ih =>
      rcases a with ⟨a1, a2⟩
      by_cases hak : a1 = k
      · subst hak
        have hna : (n == a1) = false := by simp [hnk]
        simp [List.filter_cons, List.lookup, hna, ih]
      · by_cases hna : n = a1
        · subst hna
          simp [List.filter_cons, List.lookup, hak]
        · simp [List.filter_cons, List.lookup, hak, hna, ih]

theorem lookup_filterKey_self {α : Type} (k : String) (l : List (String × α)) :
    List.lookup k (l.filter (fun p => p.1 != k)) = none := by
  induction l with
  | nil => rfl
  | cons a t ih =>
      rcases a with ⟨a1, a2⟩
      by_cases hak : a1 = k
      · subst hak; simp [List.filter_cons, ih]
      · have : (k == a1) = false := by
          simp only [beq_eq_false_iff_ne, ne_eq]
          exact fun h => hak h.symm
        simp [List.filter_cons, List.lookup, hak, this, ih]

theorem lookup_alistInsert {α : Type} (k n : String) (v : α)
    (l : List (String × α)) :
    List.lookup n (alistInsert k v l) =
      if n = k then some v else List.lookup n l := by
  by_cases hnk : n = k
  · subst hnk; simp [alistInsert, List.lookup]
  · have : (n == k) = false := by simp [hnk]
    simp [alistInsert, List.lookup, this, hnk, lookup_filterKey_ne hnk]

theorem lookup_alistErase {α : Type} (k n : String) (l : List (String × α)) :
    List.lookup n (alistErase k l) =
      if n = k then none else List.lookup n l := by
  by_cases hnk : n = k
  · subst hnk; simp [alistErase, lookup_filterKey_self]
  · simp [alistErase, hnk, lookup_filterKey_ne hnk]

theorem keys_filter_sublist {α : Type} (f : String × α → Bool)
    (l : List (String × α)) :
    (alistKeys (l.filter f)).Sublist (alistKeys l) :=
  (List.filter_sublist l).map Prod.fst

theorem nodup_alistInsert {α : Type} (k : String) (v : α)
    {l : List (String × α)} (h : (alistKeys l).Nodup) :
    (alistKeys (alistInsert k v l)).Nodup := by
  have hsub := keys_filter_sublist (fun p => p.1 != k) l
  refine List.Nodup.cons ?_ (hsub.nodup h)
  intro hmem
  rcases List.mem_map.mp hmem with ⟨p, hp, hpk⟩
  have := List.of_mem_filter hp
  simp [hpk] at this

theorem nodup_alistErase {α : Type} (k : String)
    {l : List (String × α)} (h : (alistKeys l).Nodup) :
    (alistKeys (alistErase k l)).Nodup :=
  (keys_filter_sublist (fun p => p.1 != k) l).nodup h

theorem lookup_eq_none_of_not_mem {α : Type} {n : String}
    {l : List (String × α)} (h : n ∉ alistKeys l) :
    List.lookup n l = none := by
  induction l with
  | nil => rfl
  | cons a t ih =>
      simp only [alistKeys, List.map_cons, List.mem_cons, not_or] at h
      obtain ⟨h1, h2⟩ := h
      have hb : (n == a.1) = false := by simp [h1]
      have ht : List.lookup n t = none := ih (by simpa [alistKeys] using h2)
      simp [List.lookup, hb, ht]

theorem mem_of_mem_alistInsert {α : Type} {k : String} {v : α}
    {l : List (String × α)} {p : String × α}
    (hp : p ∈ alistInsert k v l) : p = (k, v) ∨ p ∈ l := by
  rcases List.mem_cons.mp hp with h | h
  · exact Or.inl h
  · exact Or.inr (List.mem_of_mem_filter h)

/-! ## Template-store invariant lemmas -/

theorem lookup_loadDiskAux (l acc : List (String × Tmpl))
    (hname : ∀ p ∈ l, effName p.1 p.2 = p.1)
    (hnd : (alistKeys l).Nodup) (n : String) :
    List.lookup n
      (l.foldl (fun m f => alistInsert (effName f.1 f.2) f.2 m) acc) =
      match List.lookup n l with
      | some t => some t
      | none => List.lookup n acc := by
  induction l generalizing acc with
  | nil => simp
  | cons a t ih =>
      rcases a with ⟨a1, a2⟩
      have hhead : effName a1 a2 = a1 := hname (a1, a2) (List.mem_cons_self _ _)
      have hnd' : (alistKeys t).Nodup := (List.nodup_cons.mp hnd).2
      have hnotin : a1 ∉ alistKeys t := (List.nodup_cons.mp hnd).1
      have htail : ∀ p ∈ t, effName p.1 p.2 = p.1 := fun p hp =>
        hname p (List.mem_cons_of_mem _ hp)
      simp only [List.foldl_cons, hhead]
      rw [ih (alistInsert a1 a2 acc) htail hnd']
      by_cases hna : n = a1
      · subst hna
        have : List.lookup n t = none := lookup_eq_none_of_not_mem hnotin
        simp [this, List.lookup, lookup_alistInsert]
      · have : (n == a1) = false := by simp [hna]
        simp only [List.lookup, this, cond_false]
        cases List.lookup n t with
        | none => exact lookup_filterKey_ne hna acc
        | some tv => simp

theorem lookup_loadDisk (l : List (String × Tmpl))
    (hname : ∀ p ∈ l, effName p.1 p.2 = p.1)
    (hnd : (alistKeys l).Nodup) (n : String) :
    List.lookup n (loadDisk l) = List.lookup n l := by
  rw [loadDisk, lookup_loadDiskAux l [] hname hnd n]
  cases List.lookup n l <;> simp

theorem nodup_loadDiskAux (l acc : List (String × Tmpl))
    (hacc : (alistKeys acc).Nodup) :
    (alistKeys
      (l.foldl (fun m f => alistInsert (effName f.1 f.2) f.2 m) acc)).Nodup := by
  induction l generalizing acc with
  | nil => exact hacc
  | cons a t ih => exact ih _ (nodup_alistInsert _ _ hacc)

theorem nodup_loadDisk (l : List (String × Tmpl)) :
    (alistKeys (loadDisk l)).Nodup :=
  nodup_loadDiskAux l [] List.nodup_nil

theorem inv_empty : TmplStore.empty.Inv := by
  refine ⟨List.nodup_nil, List.nodup_nil, ?_, ?_⟩
  · intro p hp; cases hp
  · intro n; rfl

theorem inv_create {s : TmplStore} (hs : s.Inv) (name : String) (t : Tmpl) :
    (s.create name t).Inv := by
  obtain ⟨hd, hm, hn, ha⟩ := hs
  refine ⟨nodup_alistInsert _ _ hd, nodup_alistInsert _ _ hm, ?_, ?_⟩
  · intro p hp
    rcases mem_of_mem_alistInsert hp with h | h
    · subst h
      simp [tmplGet, tmplSet, lookup_alistInsert]
    · exact hn p h
  · intro n
    simp only [TmplStore.create]
    rw [lookup_alistInsert, lookup_alistInsert]
    by_cases hnk : n = name
    · simp [hnk]
    · simp [hnk, ha n]

theorem inv_delete {s : TmplStore} (hs : s.Inv) (name : String) :
    (s.delete name).1.Inv := by
  obtain ⟨hd, hm, hn, ha⟩ := hs
  rw [TmplStore.delete]
  by_cases hex : (List.lookup name s.disk).isSome
  · simp only [hex, if_true]
    refine ⟨nodup_alistErase _ hd, nodup_alistErase _ hm, ?_, ?_⟩
    · intro p hp
      exact hn p (List.mem_of_mem_filter hp)
    · intro n
      rw [lookup_alistErase, lookup_alistErase]
      by_cases hnk : n = name
      · simp [hnk]
      · simp [hnk, ha n]
  · simp only [hex, if_false]
    exact ⟨hd, hm, hn, ha⟩

theorem inv_reload {s : TmplStore} (hs : s.Inv) : s.reload.Inv := by
  obtain ⟨hd, hm, hn, ha⟩ := hs
  have heff : ∀ p ∈ s.disk, effName p.1 p.2 = p.1 := by
    intro p hp
    simp [effName, hn p hp]
  refine ⟨hd, nodup_loadDisk _, hn, ?_⟩
  intro n
  exact lookup_loadDisk s.disk heff hd n

theorem inv_step {s : TmplStore} (hs : s.Inv) (op : TmplOp) :
    (s.step op).Inv := by
  cases op with
  | create name t => exact inv_create hs name t
  | delete name => exact inv_delete hs name
  | reload => exact inv_reload hs

theorem inv_run {s : TmplStore} (hs : s.Inv) (ops : List TmplOp) :
    (s.run ops).Inv := by
  induction ops generalizing s with
  | nil => exact hs
  | cons op rest ih => exact ih (inv_step hs op)

/-- C1: in every template store reachable from an empty directory by
`create_template`, `delete_template` and reloads, each template name maps
to at most one template (the in-memory names are pairwise distinct), the
template registered under a name `n` is persisted by the file whose stem
is `n` (so the file is `n + ".yaml"`), and every persisted file carries
its own stem as its template name, so no other file persists a template
named `n`. -/
theorem template_store_invariant (ops : List TmplOp) :
    (alistKeys (TmplStore.run TmplStore.empty ops).mem).Nodup ∧
    (∀ n t, List.lookup n (TmplStore.run TmplStore.empty ops).mem = some t →
      List.lookup n (TmplStore.run TmplStore.empty ops).disk = some t) ∧
    (∀ p ∈ (TmplStore.run TmplStore.empty ops).disk,
      tmplGet p.2 "name" = some p.1) := by
  obtain ⟨hd, hm, hn, ha⟩ := inv_run inv_empty ops
  refine ⟨hm, ?_, hn⟩
  intro n t hmem
  rw [← ha n]
  exact hmem

/-- C6 counterexample: on the store `staleStore`, obtained by
constructing a manager over an empty directory and then adding the file
`a.yaml` to the directory externally, `get_template "a"` does not return
the template the directory holds at the time of the call. -/
theorem template_query_cached_counterexample :
    ¬ (TmplStore.getTemplate staleStore "a" =
        List.lookup "a" (loadDisk staleStore.disk)) := by
  decide

/-- C6 (amended): `get_template` and `list_templates` read only the
in-memory `_templates` dict loaded at construction and maintained by
`create_template` / `delete_template`; their results are invariant under
any change to the YAML files in the templates directory, so files added
or removed externally after the manager was constructed are not seen
until a new manager is constructed. -/
theorem template_queries_ignore_directory
    (disk disk' mem : List (String × Tmpl)) (n : String) :
    TmplStore.getTemplate ⟨disk, mem⟩ n = TmplStore.getTemplate ⟨disk', mem⟩ n ∧
    TmplStore.listTemplates ⟨disk, mem⟩ = TmplStore.listTemplates ⟨disk', mem⟩ :=
  ⟨rfl, rfl⟩

/-- C6 amended-claim witness at a concrete store: an externally added
file changes the directory but not the query results. -/
theorem template_queries_ignore_directory_witness :
    TmplStore.getTemplate ⟨[("a", [("os", "linux")])], []⟩ "a" =
      TmplStore.getTemplate ⟨[], []⟩ "a" :=
  (template_queries_ignore_directory [("a", [("os", "linux")])] [] [] "a").1

/-- C2: both state maps translate the seven named libvirt domain state
codes to the strings the claim lists, every other code to `"unknown"`,
and `get_vm_info` uses the same mapping as `list_vms`. -/
theorem state_code_mapping :
    ((listVmsStateMap VIR_DOMAIN_RUNNING).value = "running" ∧
     (listVmsStateMap VIR_DOMAIN_BLOCKED).value = "idle" ∧
     (listVmsStateMap VIR_DOMAIN_PAUSED).value = "paused" ∧
     (listVmsStateMap VIR_DOMAIN_SHUTDOWN).value = "shutdown" ∧
     (listVmsStateMap VIR_DOMAIN_SHUTOFF).value = "shutoff" ∧
     (listVmsStateMap VIR_DOMAIN_CRASHED).value = "crashed" ∧
     (listVmsStateMap VIR_DOMAIN_PMSUSPENDED).value = "pmsuspended") ∧
    (∀ c, c ∉ [VIR_DOMAIN_RUNNING, VIR_DOMAIN_BLOCKED, VIR_DOMAIN_PAUSED,
        VIR_DOMAIN_SHUTDOWN, VIR_DOMAIN_SHUTOFF, VIR_DOMAIN_CRASHED,
        VIR_DOMAIN_PMSUSPENDED] →
      (listVmsStateMap c).value = "unknown") ∧
    (∀ c, getVmInfoStateMap c = listVmsStateMap c) := by
  refine ⟨by decide, ?_, fun c => rfl⟩
  intro c hc
  simp only [List.mem_cons, List.not_mem_nil, or_false, not_or] at hc
  obtain ⟨h1, h2, h3, h4, h5, h6, h7⟩ := hc
  simp [listVmsStateMap, VMState.value, h1, h2, h3, h4, h5, h6, h7]

/-- C2 witness: the mapping evaluated at the unnamed code 0 and at a code
beyond the named range. -/
theorem state_code_mapping_witness :
    (listVmsStateMap 0).value = "unknown" ∧
    (listVmsStateMap 9).value = "unknown" :=
  ⟨state_code_mapping.2.1 0 (by decide), state_code_mapping.2.1 9 (by decide)⟩

theorem string_append_assoc (a b c : String) :
    (a ++ b) ++ c = a ++ (b ++ c) := by
  apply String.ext
  simp [String.data_append, List.append_assoc]

/-- C7: the `vm create`, `vm delete` and `vm fix-permissions` CLI
commands all derive the VM's disk image path from the VM name as
`storage_dir/<name>.qcow2`. -/
theorem cli_disk_image_paths (storageDir name : String) :
    vmCreateDiskPath storageDir name = storageDir ++ "/" ++ name ++ ".qcow2" ∧
    vmDeleteDiskPath storageDir name = storageDir ++ "/" ++ name ++ ".qcow2" ∧
    vmFixPermissionsDiskPath storageDir name =
      storageDir ++ "/" ++ name ++ ".qcow2" := by
  refine ⟨?_, ?_, ?_⟩ <;>
    simp [vmCreateDiskPath, vmDeleteDiskPath, vmFixPermissionsDiskPath,
      pathJoin, string_append_assoc]

/-! ## XML node lemmas -/

theorem XNode.tag_setAttr (k v : String) (n : XNode) :
    (n.setAttr k v).tag = n.tag := by
  cases n; rfl

theorem XNode.text_setAttr (k v : String) (n : XNode) :
    (n.setAttr k v).text = n.text := by
  cases n; rfl

theorem XNode.children_setAttr (k v : String) (n : XNode) :
    (n.setAttr k v).children = n.children := by
  cases n; rfl

theorem XNode.attr_setAttr_self (k v : String) (n : XNode) :
    (n.setAttr k v).attr k = some v := by
  cases n
  simp [XNode.setAttr, XNode.attr, XNode.attrs, lookup_alistInsert]

theorem XNode.attr_setAttr_ne {k k' : String} (hne : k' ≠ k) (v : String)
    (n : XNode) : (n.setAttr k v).attr k' = n.attr k' := by
  cases n
  simp [XNode.setAttr, XNode.attr, XNode.attrs, lookup_alistInsert, hne]

theorem XNode.tag_delAttr (k : String) (n : XNode) :
    (n.delAttr k).tag = n.tag := by
  cases n; rfl

theorem XNode.text_delAttr (k : String) (n : XNode) :
    (n.delAttr k).text = n.text := by
  cases n; rfl

theorem XNode.attr_delAttr_self (k : String) (n : XNode) :
    (n.delAttr k).attr k = none := by
  cases n
  simp [XNode.delAttr, XNode.attr, XNode.attrs, lookup_alistErase]

theorem XNode.attr_delAttr_ne {k k' : String} (hne : k' ≠ k) (n : XNode) :
    (n.delAttr k).attr k' = n.attr k' := by
  cases n
  simp [XNode.delAttr, XNode.attr, XNode.attrs, lookup_alistErase, hne]

theorem XNode.tag_withText (tx : Option String) (n : XNode) :
    (n.withText tx).tag = n.tag := by
  cases n; rfl

theorem XNode.text_withText (tx : Option String) (n : XNode) :
    (n.withText tx).text = tx := by
  cases n; rfl

theorem XNode.attr_withText (tx : Option String) (k : String) (n : XNode) :
    (n.withText tx).attr k = n.attr k := by
  cases n; rfl

theorem XNode.tag_withChildren (cs : List XNode) (n : XNode) :
    (n.withChildren cs).tag = n.tag := by
  cases n; rfl

theorem XNode.children_withChildren (cs : List XNode) (n : XNode) :
    (n.withChildren cs).children = cs := by
  cases n; rfl

theorem XNode.attr_withChildren (cs : List XNode) (k : String) (n : XNode) :
    (n.withChildren cs).attr k = n.attr k := by
  cases n; rfl

theorem XNode.text_withChildren (cs : List XNode) (n : XNode) :
    (n.withChildren cs).text = n.text := by
  cases n; rfl

theorem XNode.tag_mapChild (t : String) (f : XNode → XNode) (n : XNode) :
    (n.mapChild t f).tag = n.tag :=
  XNode.tag_withChildren _ n

theorem XNode.children_mapChild (t : String) (f : XNode → XNode) (n : XNode) :
    (n.mapChild t f).children =
      mapFirstBy (fun c => c.tag == t) f n.children :=
  XNode.children_withChildren _ n

/-! ## `mapFirstBy` and `find?` lemmas -/

theorem find?_mapFirstBy_self {α : Type} (p : α → Bool) (f : α → α)
    (hp : ∀ x, p (f x) = p x) (l : List α) :
    (mapFirstBy p f l).find? p = (l.find? p).map f := by
  induction l with
  | nil => rfl
  | cons x xs ih =>
      by_cases hx : p x = true
      · simp [mapFirstBy, hx, List.find?_cons, hp x]
      · have hx' : p x = false := by simpa using hx
        simp [mapFirstBy, hx', List.find?_cons, ih]

theorem find?_mapFirstBy_other {α : Type} (p q : α → Bool) (f : α → α)
    (hpq : ∀ x, p x = true → q x = false) (hq : ∀ x, q (f x) = q x)
    (l : List α) : (mapFirstBy p f l).find? q = l.find? q := by
  induction l with
  | nil => rfl
  | cons x xs ih =>
      by_cases hx : p x = true
      · have hqx : q x = false := hpq x hx
        have hqfx : q (f x) = false := by rw [hq x]; exact hqx
        simp [mapFirstBy, hx, List.find?_cons, hqx, hqfx]
      · have hx' : p x = false := by simpa using hx
        by_cases hqx : q x = true
        · simp [mapFirstBy, hx', List.find?_cons, hqx]
        · have hqx' : q x = false := by simpa using hqx
          simp [mapFirstBy, hx', List.find?_cons, hqx', ih]

theorem length_mapFirstBy {α : Type} (p : α → Bool) (f : α → α) (l : List α) :
    (mapFirstBy p f l).length = l.length := by
  induction l with
  | nil => rfl
  | cons x xs ih =>
      by_cases hx : p x = true
      · simp [mapFirstBy, hx]
      · have hx' : p x = false := by simpa using hx
        simp [mapFirstBy, hx', ih]

theorem mapFirstBy_decomp {α : Type} {p : α → Bool} (f : α → α)
    {l : List α} {c : α} (h : l.find? p = some c) :
    ∃ l1 l2, l = l1 ++ c :: l2 ∧ (∀ x ∈ l1, p x = false) ∧
      mapFirstBy p f l = l1 ++ f c :: l2 := by
  induction l with
  | nil => cases h
  | cons x xs ih =>
      by_cases hx : p x = true
      · rw [List.find?_cons_of_pos _ hx] at h
        obtain rfl : x = c := by injection h
        refine ⟨[], xs, rfl, ?_, ?_⟩
        · intro y hy; cases hy
        · simp [mapFirstBy, hx]
      · have hx' : p x = false := by simpa using hx
        rw [List.find?_cons_of_neg _ (by simp [hx'])] at h
        obtain ⟨l1, l2, heq, hfalse, hmap⟩ := ih h
        refine ⟨x :: l1, l2, by simp [heq], ?_, ?_⟩
        · intro y hy
          rcases List.mem_cons.mp hy with rfl | hy'
          · exact hx'
          · exact hfalse y hy'
        · simp [mapFirstBy, hx', hmap]

theorem XNode.findChild_mapChild_same (t : String) (f : XNode → XNode)
    (hf : ∀ c, (f c).tag = c.tag) (n : XNode) :
    (n.mapChild t f).findChild t = (n.findChild t).map f := by
  rw [XNode.findChild, XNode.children_mapChild, XNode.findChild]
  exact find?_mapFirstBy_self _ f (fun x => by simp [hf x]) n.children

theorem XNode.findChild_mapChild_ne {t t' : String} (hne : t' ≠ t)
    (f : XNode → XNode) (hf : ∀ c, (f c).tag = c.tag) (n : XNode) :
    (n.mapChild t f).findChild t' = n.findChild t' := by
  rw [XNode.findChild, XNode.children_mapChild, XNode.findChild]
  refine find?_mapFirstBy_other _ _ f ?_ (fun x => by simp [hf x]) n.children
  intro x hx
  have hxt : x.tag = t := by simpa using hx
  rw [hxt]
  simp only [beq_eq_false_iff_ne, ne_eq]
  exact fun h => hne h.symm

theorem treeName_mapChild_ne {t : String} (hne : t ≠ "name")
    (f : XNode → XNode) (hf : ∀ c, (f c).tag = c.tag) (n : XNode) :
    treeName (n.mapChild t f) = treeName n := by
  rw [treeName, treeName, XNode.findChild_mapChild_ne (fun h => hne h.symm) f hf]

/-! ## Hypervisor lookup lemmas -/

theorem find?_filter_keep {α : Type} {p q : α → Bool} {l : List α} {d : α}
    (hd : l.find? p = some d) (hq : q d = true) :
    (l.filter q).find? p = some d := by
  induction l with
  | nil => cases hd
  | cons x xs ih =>
      by_cases hx : p x = true
      · rw [List.find?_cons_of_pos _ hx] at hd
        obtain rfl : x = d := by injection hd
        simp [List.filter_cons, hq, List.find?_cons, hx]
      · have hx' : p x = false := by simpa using hx
        rw [List.find?_cons_of_neg _ (by simp [hx'])] at hd
        by_cases hqx : q x = true
        · simp [List.filter_cons, hqx, List.find?_cons, hx', ih hd]
        · have hqx' : q x = false := by simpa using hqx
          simp [List.filter_cons, hqx', ih hd]

theorem find?_map_update {α : Type} {key : α → String} {k : String}
    {g : α → α} (hg : ∀ y, key (g y) = key y) {l : List α} {d : α}
    (hd : l.find? (fun x => key x == k) = some d) :
    (l.map (fun x => if key x = k then g x else x)).find?
      (fun x => key x == k) = some (g d) := by
  induction l with
  | nil => cases hd
  | cons x xs ih =>
      by_cases hx : key x = k
      · rw [List.find?_cons_of_pos _ (by simp [hx])] at hd
        obtain rfl : x = d := by injection hd
        simp [List.map_cons, hx, List.find?_cons, hg]
      · rw [List.find?_cons_of_neg _ (by simp [hx])] at hd
        simp only [List.map_cons, if_neg hx]
        rw [List.find?_cons_of_neg _ (by simp [hx])]
        exact ih hd

theorem lookupByName_undefine_active {h : Hyp} {nm : String} {d : Domain}
    (hd : h.lookupByName nm = some d) (hact : d.active = true) :
    (h.undefineDom nm).lookupByName nm = some d := by
  exact find?_filter_keep hd (by simp [hact])

theorem lookupByName_defineXML_replace {h : Hyp} {t : XNode} {nm : String}
    {d : Domain} (hname : treeName t = some nm)
    (hd : h.lookupByName nm = some d) :
    (h.defineXML t).lookupByName nm = some { d with xml := t } := by
  simp only [Hyp.defineXML, hname, hd, Option.isSome_some, ite_true]
  have hd' : h.domains.find? (fun x => x.name == nm) = some d := hd
  exact find?_map_update (g := fun y => { y with xml := t }) (fun y => rfl) hd'

theorem find?_eq_none_append {α : Type} {p : α → Bool} {l1 l2 : List α}
    (h1 : l1.find? p = none) : (l1 ++ l2).find? p = l2.find? p := by
  induction l1 with
  | nil => rfl
  | cons x xs ih =>
      by_cases hx : p x = true
      · rw [List.find?_cons_of_pos _ hx] at h1; cases h1
      · have hx' : p x = false := by simpa using hx
        rw [List.find?_cons_of_neg _ (by simp [hx'])] at h1
        rw [List.cons_append, List.find?_cons_of_neg _ (by simp [hx'])]
        exact ih h1

theorem lookupByName_defineXML_new {h : Hyp} {t : XNode} {nm : String}
    (hname : treeName t = some nm) (hnone : h.lookupByName nm = none) :
    (h.defineXML t).lookupByName nm =
      some { name := nm, stateCode := VIR_DOMAIN_SHUTOFF, active := false,
             domId := 0, maxMemKiB := 0, memKiB := 0, nrVirtCpu := 0,
             cpuTimeNs := 0, xml := t } := by
  simp only [Hyp.defineXML, hname, hnone, Option.isSome_none,
    Bool.false_eq_true, ite_false]
  have h1 : h.domains.find? (fun d => d.name == nm) = none := hnone
  simp only [Hyp.lookupByName]
  rw [find?_eq_none_append h1]
  simp [List.find?_cons]

/-! ## C8: `get_vm_info` is a pure query -/

/-- C8: `get_vm_info` leaves the hypervisor unchanged, returns `None`
when the domain lookup fails, and otherwise returns exactly the state
string, CPU count, memory figures and the interface and disk records
extracted from the domain's XML. -/
theorem get_vm_info_pure_query (h : Hyp) (n : String) :
    (h.getVmInfo n).2 = h ∧
    (h.lookupByName n = none → (h.getVmInfo n).1 = none) ∧
    (∀ d, h.lookupByName n = some d →
      (h.getVmInfo n).1 = some
        { name := n
          state := (getVmInfoStateMap d.stateCode).value
          cpu := d.nrVirtCpu
          memory := (d.memKiB : ℚ) / 1024
          max_memory := (d.maxMemKiB : ℚ) / 1024
          cpu_time := (d.cpuTimeNs : ℚ) / 1000000000
          interfaces := extractInterfaces d.xml
          disks := extractDisks d.xml }) := by
  refine ⟨?_, ?_, ?_⟩
  · rw [Hyp.getVmInfo]
    cases h.lookupByName n <;> rfl
  · intro hn; rw [Hyp.getVmInfo, hn]
  · intro d hd; rw [Hyp.getVmInfo, hd]

/-- C8 witness: the query evaluated on the concrete hypervisor
`lifeHyp`, both on a present domain and on an absent name. -/
theorem get_vm_info_pure_query_witness :
    (lifeHyp.getVmInfo "vm4").2 = lifeHyp ∧
    (lifeHyp.getVmInfo "absent").1 = none ∧
    (lifeHyp.getVmInfo "vm4").1 = some
      { name := "vm4"
        state := (getVmInfoStateMap infoDom.stateCode).value
        cpu := infoDom.nrVirtCpu
        memory := (infoDom.memKiB : ℚ) / 1024
        max_memory := (infoDom.maxMemKiB : ℚ) / 1024
        cpu_time := (infoDom.cpuTimeNs : ℚ) / 1000000000
        interfaces := extractInterfaces infoDom.xml
        disks := extractDisks infoDom.xml } :=
  ⟨(get_vm_info_pure_query lifeHyp "vm4").1,
   (get_vm_info_pure_query lifeHyp "absent").2.1 rfl,
   (get_vm_info_pure_query lifeHyp "vm4").2.2 infoDom rfl⟩

/-! ## C9: lifecycle guards -/

/-- C9: for every existing domain, `start_vm` returns `False` and leaves
the hypervisor (hence the domain) unchanged when the domain is already
active, `stop_vm` returns `False` when the domain is not active,
`suspend_vm` returns `False` when the domain is not active, and
`resume_vm` returns `False` unless the domain's state is `PAUSED`; in
each guarded case the hypervisor is untouched. -/
theorem lifecycle_state_guards (h : Hyp) (n : String) (force : Bool)
    (d : Domain) (hd : h.lookupByName n = some d) :
    (d.active = true → h.startVm n = (.ok false, h)) ∧
    (d.active = false → h.stopVm n force = (.ok false, h)) ∧
    (d.active = false → h.suspendVm n = (.ok false, h)) ∧
    (d.stateCode ≠ VIR_DOMAIN_PAUSED → h.resumeVm n = (.ok false, h)) := by
  refine ⟨?_, ?_, ?_, ?_⟩
  · intro hact
    rw [Hyp.startVm, hd]
    simp [hact]
  · intro hact
    rw [Hyp.stopVm, hd]
    simp [hact]
  · intro hact
    rw [Hyp.suspendVm, hd]
    simp [hact]
  · intro hstate
    rw [Hyp.resumeVm, hd]
    simp [hstate]

/-- C9 witness: the guards evaluated on the concrete hypervisor
`lifeHyp`, with an active domain for `start_vm`, a stopped domain for
`stop_vm` and `suspend_vm`, and a running (not paused) domain for
`resume_vm`. -/
theorem lifecycle_state_guards_witness :
    lifeHyp.startVm "vm1" = (.ok false, lifeHyp) ∧
    lifeHyp.stopVm "vm5" true = (.ok false, lifeHyp) ∧
    lifeHyp.suspendVm "vm5" = (.ok false, lifeHyp) ∧
    lifeHyp.resumeVm "vm1" = (.ok false, lifeHyp) :=
  ⟨(lifecycle_state_guards lifeHyp "vm1" true cpuDom rfl).1 rfl,
   (lifecycle_state_guards lifeHyp "vm5" true stoppedDom rfl).2.1 rfl,
   (lifecycle_state_guards lifeHyp "vm5" true stoppedDom rfl).2.2.1 rfl,
   (lifecycle_state_guards lifeHyp "vm1" true cpuDom rfl).2.2.2 (by decide)⟩

/-! ## C5: ISO tool selection and fallback -/

/-- Failure flag of the environment for each tool name. -/
def toolFails (env : IsoEnv) (t : String) : Bool :=
  if t = "genisoimage" then env.genisoFails
  else if t = "mkisofs" then env.mkisofsFails
  else false

/-- C5: `create_cloud_init_iso` invokes `genisoimage` first whenever it
is available, falls back to `mkisofs` exactly when `genisoimage` fails or
is absent while `mkisofs` is present, attempts no tool exactly when
neither is installed, raises `RuntimeError` exactly when every attempted
tool fails (vacuously, when none is available), and on success returns
the requested output path (or the generated temporary name). -/
theorem iso_tool_fallback (env : IsoEnv) (u : String) (m op : Option String) :
    ((createCloudInitIso env u m op).invoked.head?.map Prod.fst =
        if env.genisoAvail then some "genisoimage"
        else if env.mkisofsAvail then some "mkisofs" else none) ∧
    ((∃ args, ("mkisofs", args) ∈ (createCloudInitIso env u m op).invoked) ↔
        (env.mkisofsAvail = true ∧
          (env.genisoAvail = false ∨ env.genisoFails = true))) ∧
    ((createCloudInitIso env u m op).invoked = [] ↔
        (env.genisoAvail = false ∧ env.mkisofsAvail = false)) ∧
    ((∃ e, (createCloudInitIso env u m op).result = .error e) ↔
        (∀ ti ∈ (createCloudInitIso env u m op).invoked,
          toolFails env ti.1 = true)) ∧
    (∀ p, (createCloudInitIso env u m op).result = .ok p →
        p = op.getD env.tmpName) := by
  obtain ⟨g, mk, gf, mf, tmp⟩ := env
  cases g <;> cases mk <;> cases gf <;> cases mf <;>
    simp [createCloudInitIso, toolFails]

/-- C5 witness: in the environment `isoEnv0` (`genisoimage` present but
failing, `mkisofs` present and working) the fallback fires, the result is
not an error, and the returned path is the generated temporary name. -/
theorem iso_tool_fallback_witness :
    (∃ args, ("mkisofs", args) ∈
      (createCloudInitIso isoEnv0 "ud" none none).invoked) ∧
    (∀ p, (createCloudInitIso isoEnv0 "ud" none none).result = .ok p →
      p = "/tmp/tmp1234.iso") :=
  ⟨(iso_tool_fallback isoEnv0 "ud" none none).2.1.mpr ⟨rfl, Or.inr rfl⟩,
   (iso_tool_fallback isoEnv0 "ud" none none).2.2.2.2⟩

/-! ## C10: `create_vm` -/

/-- C10: `create_vm` raises `ValueError` and leaves the hypervisor
unchanged (defining no new domain) when a domain with the name exists;
otherwise it returns `True` and defines a new domain whose configuration
XML carries the requested name, vCPU count, memory in MiB, qcow2 disk
path and network name. -/
theorem create_vm_duplicate_and_xml (h : Hyp) (nm : String) (tmpl : Tmpl)
    (diskPath : String) (cpu memoryMb : Nat) (network : String) :
    (∀ d, h.lookupByName nm = some d →
      h.createVm nm tmpl diskPath cpu memoryMb network =
        (.error (.valueError ("VM " ++ nm ++ " already exists")), h)) ∧
    (h.lookupByName nm = none →
      (h.createVm nm tmpl diskPath cpu memoryMb network).1 = .ok true ∧
      ∃ d, (h.createVm nm tmpl diskPath cpu memoryMb network).2.lookupByName nm
          = some d ∧
        (d.xml.findChild "name").bind XNode.text = some nm ∧
        (d.xml.findChild "vcpu").bind XNode.text = some (toString cpu) ∧
        (d.xml.findChild "memory").bind XNode.text = some (toString memoryMb) ∧
        (d.xml.findChild "memory").map (fun e => e.attr "unit") =
          some (some "MiB") ∧
        ∃ devs, d.xml.findChild "devices" = some devs ∧
          (∃ dsk ∈ devs.children, dsk.tag = "disk" ∧
            (dsk.findChild "driver").map (fun dr => dr.attr "type") =
              some (some "qcow2") ∧
            (dsk.findChild "source").map (fun s => s.attr "file") =
              some (some diskPath)) ∧
          (∃ ifc ∈ devs.children, ifc.tag = "interface" ∧
            (ifc.findChild "source").map (fun s => s.attr "network") =
              some (some network))) := by
  constructor
  · intro d hd
    rw [Hyp.createVm, hd]
  · intro hnone
    constructor
    · rw [Hyp.createVm, hnone]
    · rw [Hyp.createVm, hnone]
      refine ⟨_, lookupByName_defineXML_new (by rfl) hnone,
        by rfl, by rfl, by rfl, by rfl, ?_⟩
      refine ⟨_, by rfl, ?_, ?_⟩
      · refine ⟨XNode.mk "disk" [("type", "file"), ("device", "disk")]
          [XNode.mk "driver" [("name", "qemu"), ("type", "qcow2")] [] none,
           XNode.mk "source" [("file", diskPath)] [] none,
           XNode.mk "target" [("dev", "vda"), ("bus", "virtio")] [] none]
          none, ?_, by rfl, by rfl, by rfl⟩
        simp [XNode.children]
      · refine ⟨XNode.mk "interface" [("type", "network")]
          [XNode.mk "source" [("network", network)] [] none,
           XNode.mk "model" [("type", "virtio")] [] none] none,
          ?_, by rfl, by rfl⟩
        simp [XNode.children]

/-- C10 witness: creating a VM under an existing name fails and changes
nothing; creating one under a fresh name succeeds. -/
theorem create_vm_duplicate_and_xml_witness :
    lifeHyp.createVm "vm1" [] "/var/lib/vmfinder/vm9.qcow2" 2 2048 "default" =
      (.error (.valueError ("VM " ++ "vm1" ++ " already exists")), lifeHyp) ∧
    (lifeHyp.createVm "vm9" [] "/var/lib/vmfinder/vm9.qcow2" 2 2048
      "default").1 = .ok true :=
  ⟨(create_vm_duplicate_and_xml lifeHyp "vm1" [] "/var/lib/vmfinder/vm9.qcow2"
      2 2048 "default").1 cpuDom rfl,
   ((create_vm_duplicate_and_xml lifeHyp "vm9" [] "/var/lib/vmfinder/vm9.qcow2"
      2 2048 "default").2 rfl).1⟩

/-! ## C4: cloud-init seed contents and CD-ROM attachment -/

/-- C4: `create_cloud_init_iso` stages exactly the two files `user-data`
(holding the given user data) and `meta-data` (holding the given meta
data, or the default when none is given), and hands exactly these two
files to every ISO tool it invokes; `attach_cloud_init_iso_to_vm`
updates the source of an already-attached cloud-init CD-ROM in place
when that CD-ROM has a `target` child, leaving the number of devices
unchanged, raises the uncaught `AttributeError` of cloud_init.py line
166 (changing nothing) when the matched CD-ROM has no `target` child,
and otherwise appends exactly one new CD-ROM device carrying the ISO. -/
theorem cloud_init_seed_and_attach :
    (∀ env u m op,
      (createCloudInitIso env u m op).staged =
        [("user-data", u), ("meta-data", m.getD defaultMetaData)] ∧
      ∀ ti ∈ (createCloudInitIso env u m op).invoked,
        ti.2 = ["user-data", "meta-data"]) ∧
    (∀ (h : Hyp) (nm iso : String) (d : Domain) (devs c tg : XNode),
      h.lookupByName nm = some d →
      treeName d.xml = some nm →
      d.xml.findChild "devices" = some devs →
      devs.children.find? isCidataCdrom = some c →
      c.findChild "target" = some tg →
      (h.attachCloudInitIso nm iso).1 = .ok () ∧
      ∃ d', (h.attachCloudInitIso nm iso).2.lookupByName nm = some d' ∧
        ∃ devs', d'.xml.findChild "devices" = some devs' ∧
          devs'.children.length = devs.children.length ∧
          ∃ l1 l2, devs.children = l1 ++ c :: l2 ∧
            devs'.children = l1 ++ updCidataCdrom iso c :: l2 ∧
            ((updCidataCdrom iso c).findChild "source").map
              (fun s => s.attr "file") = some (some iso)) ∧
    (∀ (h : Hyp) (nm iso : String) (d : Domain) (devs c : XNode),
      h.lookupByName nm = some d →
      d.xml.findChild "devices" = some devs →
      devs.children.find? isCidataCdrom = some c →
      c.findChild "target" = none →
      h.attachCloudInitIso nm iso =
        (.error (.runtimeError "AttributeError"), h)) ∧
    (∀ (h : Hyp) (nm iso : String) (d : Domain) (devs : XNode),
      h.lookupByName nm = some d →
      treeName d.xml = some nm →
      d.xml.findChild "devices" = some devs →
      devs.children.find? isCidataCdrom = none →
      (h.attachCloudInitIso nm iso).1 = .ok () ∧
      ∃ d', (h.attachCloudInitIso nm iso).2.lookupByName nm = some d' ∧
        ∃ devs', d'.xml.findChild "devices" = some devs' ∧
          devs'.children = devs.children ++ [cidataCdromNode iso] ∧
          (cidataCdromNode iso).attr "device" = some "cdrom" ∧
          ((cidataCdromNode iso).findChild "source").map
            (fun s => s.attr "file") = some (some iso)) := by
  refine ⟨?_, ?_, ?_, ?_⟩
  · intro env u m op
    obtain ⟨g, mk, gf, mf, tmp⟩ := env
    constructor
    · cases g <;> cases mk <;> cases gf <;> cases mf <;>
        simp [createCloudInitIso, cloudInitFiles]
    · cases g <;> cases mk <;> cases gf <;> cases mf <;>
        simp [createCloudInitIso]
  · intro h nm iso d devs c tg hd hname hdevs hfind htg
    have hFtag : ∀ dv : XNode,
        (dv.withChildren
          (mapFirstBy isCidataCdrom (updCidataCdrom iso) dv.children)).tag
          = dv.tag := fun dv => XNode.tag_withChildren _ dv
    have hc : isCidataCdrom c = true := List.find?_some hfind
    have hsrc : ∃ src, c.findChild "source" = some src := by
      rw [isCidataCdrom] at hc
      rcases hfc : c.findChild "source" with _ | src
      · rw [hfc] at hc; simp at hc
      · exact ⟨src, rfl⟩
    obtain ⟨src, hsrc⟩ := hsrc
    simp only [Hyp.attachCloudInitIso, hd, hdevs, hfind, htg,
      Option.isSome_some, ite_true]
    refine ⟨True.intro, ?_⟩
    have hname' : treeName (d.xml.mapChild "devices" (fun dv =>
        dv.withChildren
          (mapFirstBy isCidataCdrom (updCidataCdrom iso) dv.children)))
        = some nm := by
      rw [treeName_mapChild_ne (by decide) _ hFtag]; exact hname
    refine ⟨_, lookupByName_defineXML_replace hname' hd, ?_⟩
    obtain ⟨l1, l2, hsplit, _, hmap⟩ :=
      mapFirstBy_decomp (updCidataCdrom iso) hfind
    refine ⟨devs.withChildren
      (mapFirstBy isCidataCdrom (updCidataCdrom iso) devs.children),
      ?_, ?_, l1, l2, hsplit, ?_, ?_⟩
    · show (d.xml.mapChild "devices" _).findChild "devices" = _
      rw [XNode.findChild_mapChild_same _ _ hFtag, hdevs]
      rfl
    · rw [XNode.children_withChildren, length_mapFirstBy]
    · rw [XNode.children_withChildren, hmap]
    · rw [updCidataCdrom,
        XNode.findChild_mapChild_ne (by decide) _
          (fun x => XNode.tag_setAttr _ _ x),
        XNode.findChild_mapChild_same _ _ (fun x => XNode.tag_setAttr _ _ x),
        hsrc]
      simp [XNode.attr_setAttr_self]
  · intro h nm iso d devs c hd hdevs hfind htgn
    simp [Hyp.attachCloudInitIso, hd, hdevs, hfind, htgn]
  · intro h nm iso d devs hd hname hdevs hnofind
    have hFtag : ∀ dv : XNode,
        (dv.withChildren (dv.children ++ [cidataCdromNode iso])).tag = dv.tag :=
      fun dv => XNode.tag_withChildren _ dv
    simp only [Hyp.attachCloudInitIso, hd, hdevs, hnofind, Option.isSome_none,
      Bool.false_eq_true, ite_false]
    refine ⟨True.intro, ?_⟩
    have hname' : treeName (d.xml.mapChild "devices" (fun dv =>
        dv.withChildren (dv.children ++ [cidataCdromNode iso]))) = some nm := by
      rw [treeName_mapChild_ne (by decide) _ hFtag]; exact hname
    refine ⟨_, lookupByName_defineXML_replace hname' hd,
      devs.withChildren (devs.children ++ [cidataCdromNode iso]),
      ?_, ?_, rfl, rfl⟩
    · show (d.xml.mapChild "devices" _).findChild "devices" = _
      rw [XNode.findChild_mapChild_same _ _ hFtag, hdevs]
      rfl
    · rw [XNode.children_withChildren]

/-- C4 witness: on the concrete hypervisor `seedHyp`, attaching to the
already-seeded domain `vm2` and to the unseeded domain `vm3` both
succeed, while attaching to the domain whose attached cloud-init CD-ROM
has no `target` child raises the `AttributeError` and changes nothing. -/
theorem cloud_init_seed_and_attach_witness :
    (createCloudInitIso isoEnv0 "ud" none none).staged =
      [("user-data", "ud"), ("meta-data", defaultMetaData)] ∧
    (seedHyp.attachCloudInitIso "vm2" "/tmp/new-cidata.iso").1 = .ok () ∧
    (targetlessHyp.attachCloudInitIso "vm6" "/tmp/new-cidata.iso") =
      (.error (.runtimeError "AttributeError"), targetlessHyp) ∧
    (seedHyp.attachCloudInitIso "vm3" "/tmp/new-cidata.iso").1 = .ok () :=
  ⟨(cloud_init_seed_and_attach.1 isoEnv0 "ud" none none).1,
   (cloud_init_seed_and_attach.2.1 seedHyp "vm2" "/tmp/new-cidata.iso"
     seededDom (XNode.mk "devices" [] [qcowDisk, oldCdrom] none) oldCdrom
     (XNode.mk "target" [("dev", "hda"), ("bus", "ide")] [] none)
     rfl rfl rfl rfl rfl).1,
   cloud_init_seed_and_attach.2.2.1 targetlessHyp "vm6" "/tmp/new-cidata.iso"
     targetlessDom (XNode.mk "devices" [] [targetlessCdrom] none)
     targetlessCdrom rfl rfl rfl rfl,
   (cloud_init_seed_and_attach.2.2.2 seedHyp "vm3" "/tmp/new-cidata.iso"
     unseededDom (XNode.mk "devices" [] [qcowDisk] none)
     rfl rfl rfl rfl).1⟩


/-! ## C3: `set_cpu` placement fixes and the running max-vCPU error -/

/-- C3: on a running domain whose `vcpu` element has `placement="auto"`
and whose `numatune` `memory` element has `placement="auto"`, a `set_cpu`
request exceeding the computed maximum vCPU count raises an error instead
of returning `True`, and the stored configuration afterwards carries the
patched placements (`vcpu` now `static`, the numatune `placement`
attribute removed) and the new maximum persisted as the `vcpu` element
text for next boot, with `current` kept at the previous maximum. -/
theorem set_cpu_patches_and_running_error (h : Hyp) (nm : String)
    (cpu maxv : Nat) (d : Domain) (v numa mem : XNode)
    (hd : h.lookupByName nm = some d)
    (hact : d.active = true)
    (hname : treeName d.xml = some nm)
    (hv : d.xml.findChild "vcpu" = some v)
    (hp : v.attr "placement" = some "auto")
    (hnuma : d.xml.findChild "numatune" = some numa)
    (hmem : numa.findChild "memory" = some mem)
    (hmp : mem.attr "placement" = some "auto")
    (hmax : vcpuMaxOf v = some maxv)
    (hlt : maxv < cpu) :
    (∃ m, (h.setCpu nm cpu).1 = .error (.runtimeError m)) ∧
    ∃ d', (h.setCpu nm cpu).2.lookupByName nm = some d' ∧
      (∃ v', d'.xml.findChild "vcpu" = some v' ∧
        v'.attr "placement" = some "static" ∧
        v'.text = some (toString cpu) ∧
        v'.attr "current" = some (toString maxv)) ∧
      (∃ numa' mem', d'.xml.findChild "numatune" = some numa' ∧
        numa'.findChild "memory" = some mem' ∧
        mem'.attr "placement" = none) := by
  have hftag : ∀ c : XNode, (XNode.setAttr "placement" "static" c).tag = c.tag :=
    fun c => XNode.tag_setAttr _ _ c
  have hgtag : ∀ c : XNode,
      (XNode.mapChild "memory" (XNode.delAttr "placement") c).tag = c.tag :=
    fun c => XNode.tag_mapChild _ _ c
  have hptag : ∀ c : XNode, (patchVcpuRunning cpu maxv c).tag = c.tag := by
    intro c
    simp only [patchVcpuRunning]
    split <;> simp [XNode.tag_setAttr, XNode.tag_withText]
  have hA1 : (d.xml.mapChild "vcpu"
      (XNode.setAttr "placement" "static")).findChild "vcpu" =
      some (XNode.setAttr "placement" "static" v) := by
    rw [XNode.findChild_mapChild_same _ _ hftag, hv]; rfl
  have hA2 : (d.xml.mapChild "vcpu"
      (XNode.setAttr "placement" "static")).findChild "numatune" =
      some numa := by
    rw [XNode.findChild_mapChild_ne (by decide) _ hftag]; exact hnuma
  have hA3 : (placementFixedXml d.xml).findChild "vcpu" =
      some (XNode.setAttr "placement" "static" v) := by
    rw [placementFixedXml, XNode.findChild_mapChild_ne (by decide) _ hgtag]
    exact hA1
  have hA4 : (placementFixedXml d.xml).findChild "numatune" =
      some (XNode.mapChild "memory" (XNode.delAttr "placement") numa) := by
    rw [placementFixedXml, XNode.findChild_mapChild_same _ _ hgtag, hA2]
    rfl
  have hT1 : treeName (d.xml.mapChild "vcpu"
      (XNode.setAttr "placement" "static")) = some nm := by
    rw [treeName_mapChild_ne (by decide) _ hftag]; exact hname
  have hT2 : treeName (placementFixedXml d.xml) = some nm := by
    rw [placementFixedXml, treeName_mapChild_ne (by decide) _ hgtag]
    exact hT1
  have hB1 : (h.undefineDom nm).lookupByName nm = some d :=
    lookupByName_undefine_active hd hact
  have hB2 : ((h.undefineDom nm).defineXML
      (placementFixedXml d.xml)).lookupByName nm =
      some { d with xml := placementFixedXml d.xml } :=
    lookupByName_defineXML_replace hT2 hB1
  have hcur : (XNode.setAttr "placement" "static" v).attr "current" =
      v.attr "current" := XNode.attr_setAttr_ne (by decide) _ v
  have htxt : (XNode.setAttr "placement" "static" v).text = v.text :=
    XNode.text_setAttr _ _ v
  have hmax1 : vcpuMaxOf (XNode.setAttr "placement" "static" v) =
      some maxv := by
    simpa only [vcpuMaxOf, hcur, htxt] using hmax
  have hB3 : (((h.undefineDom nm).defineXML
      (placementFixedXml d.xml)).undefineDom nm).lookupByName nm =
      some { d with xml := placementFixedXml d.xml } :=
    lookupByName_undefine_active hB2 hact
  have hT3 : treeName (runningMaxPersistXml cpu maxv d.xml) = some nm := by
    rw [runningMaxPersistXml, treeName_mapChild_ne (by decide) _ hptag]
    exact hT2
  have hB4 := lookupByName_defineXML_replace hT3 hB3
  have hw1p : ((XNode.setAttr "placement" "static" v).withText
      (some (toString cpu)) |>.setAttr "current"
      (toString maxv)).attr "placement" = some "static" := by
    rw [XNode.attr_setAttr_ne (by decide), XNode.attr_withText]
    exact XNode.attr_setAttr_self _ _ v
  have hpatch : patchVcpuRunning cpu maxv (XNode.setAttr "placement" "static" v)
      = ((XNode.setAttr "placement" "static" v).withText
          (some (toString cpu)) |>.setAttr "current" (toString maxv)) := by
    simp only [patchVcpuRunning, hw1p]
    rfl
  have hA5 : (runningMaxPersistXml cpu maxv d.xml).findChild "vcpu" =
      some ((XNode.setAttr "placement" "static" v).withText
        (some (toString cpu)) |>.setAttr "current" (toString maxv)) := by
    rw [runningMaxPersistXml, XNode.findChild_mapChild_same _ _ hptag, hA3]
    simp [hpatch]
  have hA6 : (runningMaxPersistXml cpu maxv d.xml).findChild "numatune" =
      some (XNode.mapChild "memory" (XNode.delAttr "placement") numa) := by
    rw [runningMaxPersistXml, XNode.findChild_mapChild_ne (by decide) _ hptag]
    exact hA4
  have hA7 : (XNode.mapChild "memory" (XNode.delAttr "placement")
      numa).findChild "memory" = some (XNode.delAttr "placement" mem) := by
    rw [XNode.findChild_mapChild_same _ _ (fun c => XNode.tag_delAttr _ c),
      hmem]
    rfl
  have hpf : (d.xml.mapChild "vcpu"
      (XNode.setAttr "placement" "static")).mapChild "numatune"
      (XNode.mapChild "memory" (XNode.delAttr "placement")) =
      placementFixedXml d.xml := rfl
  have hnr : (placementFixedXml d.xml).mapChild "vcpu"
      (patchVcpuRunning cpu maxv) = runningMaxPersistXml cpu maxv d.xml := rfl
  have hrun : h.setCpu nm cpu =
      (.error (.runtimeError (setCpuRunningErr nm maxv cpu)),
        (((h.undefineDom nm).defineXML
          (placementFixedXml d.xml)).undefineDom nm).defineXML
          (runningMaxPersistXml cpu maxv d.xml)) := by
    simp only [Hyp.setCpu, hd, hv, hp, hA2, hmem, hmp, beq_self_eq_true,
      Bool.or_self, ite_true, hpf, hB2, hA3, hmax1, hact,
      gt_iff_lt, hlt, hnr]
  refine ⟨⟨setCpuRunningErr nm maxv cpu, by rw [hrun]⟩, ?_⟩
  refine ⟨{ d with xml := runningMaxPersistXml cpu maxv d.xml },
    by rw [hrun]; exact hB4, ?_, ?_⟩
  · refine ⟨_, hA5, hw1p, ?_, ?_⟩
    · rw [XNode.text_setAttr, XNode.text_withText]
    · exact XNode.attr_setAttr_self _ _ _
  · refine ⟨_, _, hA6, hA7, ?_⟩
    exact XNode.attr_delAttr_self _ mem

/-- C3 witness: on the concrete hypervisor `cpuHyp` (running domain,
`auto` placements, maximum of 2 vCPUs), requesting 4 vCPUs produces the
runtime error instead of `True`. -/
theorem set_cpu_patches_and_running_error_witness :
    ∃ m, (cpuHyp.setCpu "vm1" 4).1 = .error (.runtimeError m) :=
  (set_cpu_patches_and_running_error cpuHyp "vm1" 4 2 cpuDom
    (XNode.mk "vcpu" [("placement", "auto")] [] (some "2"))
    (XNode.mk "numatune" []
      [XNode.mk "memory" [("mode", "strict"), ("placement", "auto")] [] none]
      none)
    (XNode.mk "memory" [("mode", "strict"), ("placement", "auto")] [] none)
    rfl rfl rfl rfl rfl rfl rfl rfl rfl (by decide)).1

end VMFinder
